import Mathlib

/-!
Verification of the round-trip translation tool (`rrt-tool.py`).

This file shallowly embeds the core of the tool in Lean 4:

* a model of the Python AST fragment the tool manipulates (`PyExpr`,
  `PyStmt`, `FunctionDefNode`, module-level items),
* `ast.unparse` restricted to that fragment (`unparseE`), including the
  precedence-driven re-parenthesisation CPython performs,
* `textwrap.dedent` (`dedentL`), faithful to CPython's implementation
  (whitespace-only lines are blanked, the common `[ \t]` margin of the
  remaining lines is removed),
* the structural extractor `parse_python_function`,
* the two emitters `generate_c_code` / `generate_java_code`,
* the reverse extractors `c_to_python` / `java_to_python`, built on an
  operational model of `IF_RETURN_PATTERN.search` (a backtracking matcher
  specialised to that one regex, `patSearch`),
* the verification engine `run_tests_with_roundtrip` (module patching),
  and the preservation verdict / exit-code logic of `main`.

Strings are modelled as `List Char`; `String` wrappers are used at the
boundaries that the claims mention.
-/

set_option linter.unusedVariables false
set_option linter.unnecessarySeqFocus false

/-! ## The Python AST fragment -/

/-- Binary arithmetic operators appearing in `ast.BinOp` nodes of the
supported fragment (`+ - * / %`). -/
inductive PyBinOp where
  | add | sub | mul | div | mod
  deriving DecidableEq, Repr

/-- Comparison operators appearing in `ast.Compare` nodes of the supported
fragment (`> >= < <= == !=`). -/
inductive PyCmpOp where
  | gt | ge | lt | le | eq | ne
  deriving DecidableEq, Repr

/-- Expression nodes of the Python AST fragment the tool manipulates.
`name`, `num` (an `ast.Constant` holding a non-negative integer), `binop`
and `cmp` (a single-comparator `ast.Compare`) form the supported subset;
`call` and `subscript` model nodes outside it. -/
inductive PyExpr where
  | name (id : String)
  | num (n : Nat)
  | binop (op : PyBinOp) (left right : PyExpr)
  | cmp (op : PyCmpOp) (left right : PyExpr)
  | call (func : PyExpr) (args : List PyExpr)
  | subscript (value index : PyExpr)

/-- Statement nodes the tool can encounter in a function body. `ret` is
`ast.Return` (whose `value` may be `None`), `ifStmt` is `ast.If`,
`exprStmt` is `ast.Expr`, `assign` is a single-target `ast.Assign`,
`passStmt` is `ast.Pass`. -/
inductive PyStmt where
  | ret (value : Option PyExpr)
  | ifStmt (test : PyExpr) (body : List PyStmt) (orelse : List PyStmt)
  | exprStmt (value : PyExpr)
  | assign (target : String) (value : PyExpr)
  | passStmt

/-- The `ast.arguments` record of a function definition.  The tool only
ever reads `args` (the plain positional parameters); the other fields are
carried to show that nothing inspects them.  Default expressions are kept
as a count, which is all that could influence control flow. -/
structure PyArgs where
  posonlyargs : List String := []
  args : List String
  vararg : Option String := none
  kwonlyargs : List String := []
  kw_defaults : Nat := 0
  kwarg : Option String := none
  defaults : Nat := 0
  deriving DecidableEq, Repr

/-- An `ast.FunctionDef` node. -/
structure FunctionDefNode where
  name : String
  args : PyArgs
  body : List PyStmt

/-- A top-level item of a parsed module (`tree.body` element):
either a function definition or some other statement, which
`parse_python_function` skips over. -/
inductive TopItem where
  | funcDef (fd : FunctionDefNode)
  | other

/-- The dict returned by `parse_python_function`:
`{'name': ..., 'args': ..., 'ast': node}` (the raw `src` text is an
I/O-boundary artifact and is not modelled). -/
structure FunctionDefInfo where
  name : String
  args : List String
  ast : FunctionDefNode

/-- Python exceptions the modelled code can raise: `RuntimeError` with its
message, `IndexError` (from `body[0]` / `orelse[0]` on an empty list) and
`AttributeError` (from `.value` on a statement without that field). -/
inductive PyRunErr where
  | runtime (msg : String)
  | indexError
  | attributeError
  deriving DecidableEq, Repr

/-! ## `ast.unparse` on the fragment -/

/-- Decimal digit character. -/
def digitChar (d : Nat) : Char := Char.ofNat (48 + d)

/-- Decimal rendering, fuel-driven so that it reduces definitionally
(`fuel` bounds the recursion depth; `numRepr` supplies enough). -/
def numReprAux : Nat → Nat → List Char
  | 0, _ => []
  | fuel + 1, n =>
    if n < 10 then [digitChar n]
    else numReprAux fuel (n / 10) ++ [digitChar (n % 10)]

/-- Decimal rendering of a non-negative integer, as produced by `repr` for
Python `int` values (most significant digit first). -/
def numRepr (n : Nat) : List Char := numReprAux (n + 1) n

/-- Operator token of an arithmetic `ast.BinOp`. -/
def bopChar : PyBinOp → Char
  | .add => '+'
  | .sub => '-'
  | .mul => '*'
  | .div => '/'
  | .mod => '%'

/-- Operator token of an `ast.Compare` comparator. -/
def copStr : PyCmpOp → List Char
  | .gt => ['>']
  | .ge => ['>', '=']
  | .lt => ['<']
  | .le => ['<', '=']
  | .eq => ['=', '=']
  | .ne => ['!', '=']

/-- Precedence level CPython's unparser assigns to each node
(comparisons below addition below multiplication below atoms). -/
def exprPrec : PyExpr → Nat
  | .cmp _ _ _ => 4
  | .binop op _ _ => match op with
    | .add | .sub => 11
    | .mul | .div | .mod => 12
  | _ => 25

/-- Precedence required of the left/right operand of a binary operator;
the right operand of a left-associative operator needs one level more. -/
def bopPrec : PyBinOp → Nat
  | .add | .sub => 11
  | .mul | .div | .mod => 12

/-- Parenthesise `inner` (of precedence `p`) when the context requires at
least precedence `req` — the `require_parens` logic of `ast._Unparser`. -/
def pwrap (inner : List Char) (p req : Nat) : List Char :=
  if p < req then '(' :: (inner ++ [')']) else inner

mutual

/-- `ast.unparse` of an expression node of the fragment, including the
parentheses the unparser re-inserts from precedence. -/
def unparseE : PyExpr → List Char
  | .name id => id.data
  | .num n => numRepr n
  | .binop op l r =>
      pwrap (unparseE l) (exprPrec l) (bopPrec op) ++
        ' ' :: bopChar op :: ' ' ::
          pwrap (unparseE r) (exprPrec r) (bopPrec op + 1)
  | .cmp op l r =>
      pwrap (unparseE l) (exprPrec l) 5 ++
        ' ' :: (copStr op ++ ' ' :: pwrap (unparseE r) (exprPrec r) 5)
  | .call f args =>
      pwrap (unparseE f) (exprPrec f) 25 ++ '(' :: (unparseArgs args ++ [')'])
  | .subscript v i =>
      pwrap (unparseE v) (exprPrec v) 25 ++ '[' :: (unparseE i ++ [']'])

/-- Comma-separated rendering of the argument list of a call. -/
def unparseArgs : List PyExpr → List Char
  | [] => []
  | [e] => unparseE e
  | e :: rest => unparseE e ++ ',' :: ' ' :: unparseArgs rest

end

/-- The tool's `expr_to_source`: `ast.unparse`, with any exception mapped
to the placeholder `'<expr>'`.  On this fragment `unparse` only raises for
the argument `None` (a bare `return`), where `.visit(None)` fails with
`AttributeError`. -/
def expr_to_source : Option PyExpr → List Char
  | some e => unparseE e
  | none => ('<' :: "expr".data) ++ ['>']

/-! ## `textwrap.dedent` -/

/-- Whitespace recognised by `textwrap.dedent` when computing margins
(`[ \t]`). -/
def isWsTab (c : Char) : Bool := c = ' ' || c = '\t'

/-- Split a character list at newline characters (`str.split('\n')`). -/
def splitNl : List Char → List (List Char)
  | [] => [[]]
  | c :: r =>
    let rest := splitNl r
    if c = '\n' then [] :: rest
    else
      match rest with
      | l :: ls => (c :: l) :: ls
      | [] => [[c]]

/-- Join lines with newline characters (`'\n'.join`). -/
def joinNl : List (List Char) → List Char
  | [] => []
  | [l] => l
  | l :: ls => l ++ '\n' :: joinNl ls

/-- Longest common prefix of two lists — the margin-merging step of
`textwrap.dedent`. -/
def commonPre : List Char → List Char → List Char
  | a :: as_, b :: bs =>
    if a = b then a :: commonPre as_ bs else []
  | _, _ => []

/-- CPython's `textwrap.dedent`: blank out whitespace-only lines, compute
the common leading `[ \t]` margin of the remaining non-empty lines, and
strip that margin from every line that carries it. -/
def dedentL (s : List Char) : List Char :=
  let ls := (splitNl s).map (fun l => if l ≠ [] && l.all isWsTab then [] else l)
  let indents := (ls.filter (fun l => !l.isEmpty)).map (·.takeWhile isWsTab)
  let margin := match indents with
    | [] => []
    | i :: is_ => is_.foldl commonPre i
  joinNl (ls.map (fun l => if margin.isPrefixOf l then l.drop margin.length else l))

/-- `textwrap.dedent` on `String`. -/
def dedentS (s : String) : String := ⟨dedentL s.data⟩

/-! ## The structural extractor `parse_python_function` -/

/-- Message of the `RuntimeError` raised when a requested function name is
missing: `f"Function '{fn_name}' not found in {path}"`. -/
def notFoundMsg (fn_name path : String) : String :=
  "Function '" ++ fn_name ++ "' not found in " ++ path

/-- Message of the `RuntimeError` raised when no function definition is
selected: `'No function found in {}'.format(path)`. -/
def noFunctionMsg (path : String) : String :=
  "No function found in " ++ path

/-- The dict `parse_python_function` builds from a `FunctionDef` node:
`name`, the positional argument names `[a.arg for a in node.args.args]`,
and the node itself. -/
def mkInfo (fd : FunctionDefNode) : FunctionDefInfo :=
  { name := fd.name, args := fd.args.args, ast := fd }

/-- The scanning loop of `parse_python_function`: walk `tree.body`,
remember the first `FunctionDef` seen, return the first one when no name
is requested, return the matching one when a name is requested. -/
def ppfLoop (path : String) (body : List TopItem) (fn_name : Option String)
    (first : Option FunctionDefNode) : Except PyRunErr FunctionDefInfo :=
  match body with
  | [] =>
    match fn_name, first with
    | some n, some _ => .error (.runtime (notFoundMsg n path))
    | _, _ => .error (.runtime (noFunctionMsg path))
  | .funcDef fd :: rest =>
    match fn_name with
    | none => .ok (mkInfo fd)
    | some n =>
      if fd.name = n then .ok (mkInfo fd)
      else ppfLoop path rest fn_name (some (first.getD fd))
  | .other :: rest => ppfLoop path rest fn_name first

/-- `parse_python_function(path, fn_name)`, modelled on the parsed module
body (`ast.parse(src).body`); `path` only feeds the error messages. -/
def parse_python_function (path : String) (body : List TopItem)
    (fn_name : Option String := none) : Except PyRunErr FunctionDefInfo :=
  ppfLoop path body fn_name none

/-! ## The emitters `generate_c_code` and `generate_java_code` -/

/-- First `ast.If` statement of a body — the search loop
`for n in node.body: if isinstance(n, ast.If): ...` of both emitters. -/
def firstIf : List PyStmt → Option (PyExpr × List PyStmt × List PyStmt)
  | [] => none
  | .ifStmt t b o :: _ => some (t, b, o)
  | _ :: rest => firstIf rest

/-- Subscript `stmts[0]`, raising `IndexError` on an empty list. -/
def item0 : List PyStmt → Except PyRunErr PyStmt
  | [] => .error .indexError
  | s :: _ => .ok s

/-- Attribute access `stmt.value`: `Return`, `Expr` and `Assign` nodes have
a `value` field (`None` for a bare `return`); other statements raise
`AttributeError`. -/
def stmtValue : PyStmt → Except PyRunErr (Option PyExpr)
  | .ret v => .ok v
  | .exprStmt e => .ok (some e)
  | .assign _ e => .ok (some e)
  | .ifStmt _ _ _ => .error .attributeError
  | .passStmt => .error .attributeError

/-- Parameter list `', '.join(f'double {arg}' for arg in args)`. -/
def cParams : List String → List Char
  | [] => []
  | [a] => ("double ").data ++ a.data
  | a :: rest => ("double ").data ++ a.data ++ (", ").data ++ cParams rest

/-- The C template of `generate_c_code`: the f-string with the shape's
pieces substituted, before `textwrap.dedent`. -/
def cFString (name params cond t f : List Char) : List Char :=
  ("\n    #include <stdio.h>\n\n    double ").data ++ name ++ ("(").data ++
    params ++ (") \x7b\n        if (").data ++ cond ++
    (") \x7b\n            return ").data ++ t ++
    (";\n        \x7d else \x7b\n            return ").data ++ f ++
    (";\n        \x7d\n    \x7d\n\n    int main(void) \x7b\n        // Example driver (not used by the Python round-trip)\n        return 0;\n    \x7d\n    ").data

/-- The Java template of `generate_java_code`, before `textwrap.dedent`. -/
def javaFString (name params cond t f : List Char) : List Char :=
  ("\n    public class Original \x7b\n        public static double ").data ++
    name ++ ("(").data ++ params ++ (") \x7b\n            if (").data ++ cond ++
    (") \x7b\n                return ").data ++ t ++
    (";\n            \x7d else \x7b\n                return ").data ++ f ++
    (";\n            \x7d\n        \x7d\n    \x7d\n    ").data

/-- `generate_c_code(info)`: find the first `ast.If` of the body (raising
`RuntimeError('Unsupported function body for C generation')` when there is
none), unparse `if_stmt.test`, `if_stmt.body[0].value` and
`if_stmt.orelse[0].value`, and fill the dedented C template. -/
def generate_c_code (info : FunctionDefInfo) : Except PyRunErr String :=
  match firstIf info.ast.body with
  | none => .error (.runtime "Unsupported function body for C generation")
  | some (test, thenBody, elseBody) => do
    let cond := expr_to_source (some test)
    let s1 ← item0 thenBody
    let v1 ← stmtValue s1
    let true_ret := expr_to_source v1
    let s2 ← item0 elseBody
    let v2 ← stmtValue s2
    let false_ret := expr_to_source v2
    pure ⟨dedentL (cFString info.name.data (cParams info.args) cond true_ret false_ret)⟩

/-- `generate_java_code(info)`: same extraction as `generate_c_code`, with
the Java template and its own error message. -/
def generate_java_code (info : FunctionDefInfo) : Except PyRunErr String :=
  match firstIf info.ast.body with
  | none => .error (.runtime "Unsupported function body for Java generation")
  | some (test, thenBody, elseBody) => do
    let cond := expr_to_source (some test)
    let s1 ← item0 thenBody
    let v1 ← stmtValue s1
    let true_ret := expr_to_source v1
    let s2 ← item0 elseBody
    let v2 ← stmtValue s2
    let false_ret := expr_to_source v2
    pure ⟨dedentL (javaFString info.name.data (cParams info.args) cond true_ret false_ret)⟩

/-! ## Operational model of `IF_RETURN_PATTERN.search`

The pattern is
`if\s*\(\s*(?P<cond>.*?)\s*\)\s*\x7b\s*return\s+(?P<true>[^;]+);\s*\x7d\s*else\s*\x7b\s*return\s+(?P<false>[^;]+);\s*\x7d`
compiled with `re.DOTALL`.  Backtracking collapses to a deterministic
procedure for this pattern: a `\s*` immediately followed by a literal can
only match by skipping the maximal whitespace run (shorter skips leave a
whitespace character facing the literal), `[^;]+` must end exactly at the
first `;`, and `\s+` admits exactly one fallback step (when the first
non-whitespace character is `;`, the capture starts one character earlier,
on the last whitespace character).  The lazy `(?P<cond>.*?)` tries stop
positions left to right; a stop is viable when, after skipping whitespace,
a `)` is found whose continuation matches.  `search` tries start positions
left to right. -/

/-- Characters of the regex class `\s` (ASCII range). -/
def isWsRe (c : Char) : Bool :=
  c = ' ' || c = '\t' || c = '\n' || c = '\r' || c = '\x0b' || c = '\x0c'

/-- Skip a (maximal) whitespace run — the deterministic residue of `\s*`
before a literal. -/
def skipWs (s : List Char) : List Char := s.dropWhile isWsRe

/-- Match a literal sequence of pattern characters, returning the rest. -/
def lit : List Char → List Char → Option (List Char)
  | [], s => some s
  | _ :: _, [] => none
  | p :: ps, c :: cs => if p = c then lit ps cs else none

/-- The tail `\s+(?P<cap>[^;]+);` of a `return` clause: at least one
whitespace character, then a capture running to the first `;`.  When the
first non-whitespace character is already `;`, the engine backtracks `\s+`
by one character and the capture is that single whitespace character
(possible only when the whitespace run has length at least 2). -/
def retCapture (s : List Char) : Option (List Char × List Char) :=
  let ws := s.takeWhile isWsRe
  let r := s.dropWhile isWsRe
  match ws, r with
  | [], _ => none
  | _ :: _, [] => none
  | _ :: _, c :: r' =>
    if c = ';' then
      if 2 ≤ ws.length then some ([ws.getLastD ' '], r') else none
    else
      match r.dropWhile (fun d => !(d = ';')) with
      | ';' :: rest => some (r.takeWhile (fun d => !(d = ';')), rest)
      | _ => none

/-- One `return` clause of the pattern: `\s*return` followed by
`\s+(?P<cap>[^;]+);` (see `retCapture`); returns the capture and the rest
of the text after the `;`. -/
def retClause (s : List Char) : Option (List Char × List Char) := do
  let s2 ← lit ("return").data (skipWs s)
  retCapture s2

/-- The part of the pattern after the `\)` closing the condition (see the
doc comment of `retClause` above for the `return` clauses):
`\s*\x7b` `retClause` `\s*\x7d\s*else\s*\x7b` `retClause` `\s*\x7d`.
Returns the two captures. -/
def afterCond (s : List Char) : Option (List Char × List Char) := do
  let s1 ← lit ['\x7b'] (skipWs s)
  let (t, s3) ← retClause s1
  let s4 ← lit ['\x7d'] (skipWs s3)
  let s5 ← lit ("else").data (skipWs s4)
  let s6 ← lit ['\x7b'] (skipWs s5)
  let (f, s8) ← retClause s6
  let _ ← lit ['\x7d'] (skipWs s8)
  pure (t, f)

/-- Viability check of one lazy stop position for `(?P<cond>.*?)\s*\)`:
after skipping whitespace the next character must be `)` and the
continuation `afterCond` must match; the condition capture is the text
consumed so far. -/
def stopCheck (acc s : List Char) : Option (List Char × List Char × List Char) :=
  match skipWs s with
  | d :: rest =>
    if d = ')' then
      match afterCond rest with
      | some (t, f) => some (acc, t, f)
      | none => none
    else none
  | [] => none

/-- The lazy condition capture: try the current stop position, else consume
one character into the capture and continue (on the empty text only the
final stop check remains, and it fails there since no `)` is left). -/
def lazyCond (acc s : List Char) : Option (List Char × List Char × List Char) :=
  match s with
  | [] => stopCheck acc []
  | c :: s' =>
    match stopCheck acc (c :: s') with
    | some r => some r
    | none => lazyCond (acc ++ [c]) s'

/-- Attempt to match `IF_RETURN_PATTERN` at the start of `s`:
`if\s*\(\s*` then the lazy condition capture. -/
def patMatchAt (s : List Char) : Option (List Char × List Char × List Char) := do
  let s1 ← lit ("if").data s
  let s2 ← lit ['('] (skipWs s1)
  lazyCond [] (skipWs s2)

/-- `IF_RETURN_PATTERN.search`: try match positions left to right; the
result is `(cond, true, false)` of the leftmost viable position (on the
empty text the single match attempt fails, since `lit` needs an `i`). -/
def patSearch (s : List Char) : Option (List Char × List Char × List Char) :=
  match s with
  | [] => patMatchAt []
  | c :: s' =>
    match patMatchAt (c :: s') with
    | some r => some r
    | none => patSearch s'

/-! ## The reverse extractors `c_to_python` and `java_to_python` -/

/-- Python `str.strip()` on the captured groups. -/
def pyStrip (l : List Char) : List Char :=
  ((l.dropWhile isWsRe).reverse.dropWhile isWsRe).reverse

/-- The round-trip renderer: the f-string of `c_to_python` /
`java_to_python` (identical in both), before `textwrap.dedent`. -/
def pyRtFString (py_name cond t f : List Char) : List Char :=
  ("\n    def ").data ++ py_name ++ ("(a, b):\n        if ").data ++ cond ++
    (":\n            return ").data ++ t ++
    ("\n        else:\n            return ").data ++ f ++ ("\n    ").data

/-- Dedented round-trip source text produced from the stripped captures
and the caller-supplied function name. -/
def pyRoundtrip (py_name cond t f : List Char) : List Char :=
  dedentL (pyRtFString py_name cond t f)

/-- `c_to_python(c_text, py_name)`: search `IF_RETURN_PATTERN` in the
text, raise `RuntimeError('Could not parse C text')` when there is no
match, else strip the three captures and render the Python function. -/
def c_to_python (c_text : String) (py_name : String := "add_mul") :
    Except String String :=
  match patSearch c_text.data with
  | none => .error "Could not parse C text"
  | some (cond, t, f) =>
      .ok ⟨pyRoundtrip py_name.data (pyStrip cond) (pyStrip t) (pyStrip f)⟩

/-- `java_to_python(java_text, py_name)`: the same extraction as
`c_to_python` with its own error message. -/
def java_to_python (java_text : String) (py_name : String := "add_mul") :
    Except String String :=
  match patSearch java_text.data with
  | none => .error "Could not parse Java text"
  | some (cond, t, f) =>
      .ok ⟨pyRoundtrip py_name.data (pyStrip cond) (pyStrip t) (pyStrip f)⟩

/-! ## The verification engine and the preservation verdict -/

/-- Execute module-level items into a namespace: each `def` binds its name
in the module dict, shadowing any earlier binding (lookup finds the most
recent one). -/
def execInto (env : List (String × FunctionDefNode)) (body : List TopItem) :
    List (String × FunctionDefNode) :=
  body.foldl
    (fun e it =>
      match it with
      | .funcDef fd => (fd.name, fd) :: e
      | .other => e)
    env

/-- The process-wide `sys.modules` registration the tool mutates: the
binding of the well-known name `'original'`. -/
structure SysModules where
  original : Option (List (String × FunctionDefNode)) := none

/-- `run_tests_with_roundtrip(roundtrip_path, original_source, tests_dir)`:
build a fresh module from the unmodified base source, execute the
round-tripped code into the same namespace, register it as `'original'`,
and run the (opaque) test oracle against the patched module. -/
def run_tests_with_roundtrip (roundtrip : List TopItem)
    (original_source : List TopItem)
    (oracle : List (String × FunctionDefNode) → Bool)
    (sys : SysModules) : Bool × SysModules :=
  let module := execInto [] original_source
  let patched := execInto module roundtrip
  (oracle patched, { original := some patched })

/-- Result object of one oracle run (`unittest` runner result); the tool
only reads `wasSuccessful()`. -/
structure TestRunResult where
  wasSuccessful : Bool

/-- The aggregation in `main`:
`preserved = res_c.wasSuccessful() and res_j.wasSuccessful()`. -/
def mainPreserved (res_c res_j : TestRunResult) : Bool :=
  res_c.wasSuccessful && res_j.wasSuccessful

/-- The exit status `main` ends with when `--run-tests` is given:
`sys.exit(0)` when preserved, `sys.exit(2)` otherwise. -/
def mainExitCode (res_c res_j : TestRunResult) : Nat :=
  if mainPreserved res_c res_j then 0 else 2

/-! ## Predicates used by the theorem statements -/

/-- True when the text contains no occurrence of the substring `if`. -/
def noIfB : List Char → Bool
  | c1 :: c2 :: r => !(c1 = 'i' && c2 = 'f') && noIfB (c2 :: r)
  | _ => true

/-- True when the text contains no newline character. -/
def nlFree (l : List Char) : Bool := l.all (fun c => !(c = '\n'))

/-- Characters an identifier of the supported fragment may use. -/
def identChar (c : Char) : Bool := c.isAlphanum || c = '_'

/-- A well-formed identifier: non-empty, identifier characters only. -/
def identOkB (id : String) : Bool :=
  !id.data.isEmpty && id.data.all identChar

/-- Characters that can occur in the rendering of a supported expression:
identifier characters, digits, spaces, operator tokens and parentheses. -/
def exprOkChar (c : Char) : Bool :=
  c.isAlphanum || c = '_' || c = ' ' || c = '+' || c = '-' || c = '*' ||
  c = '/' || c = '%' || c = '<' || c = '>' || c = '=' || c = '!' ||
  c = '(' || c = ')'

/-- Parenthesis-free expression/statement characters, used to describe the
simple malformed target texts of the malformed-target-rejection property. -/
def flatChar (c : Char) : Bool :=
  c.isAlphanum || c = '_' || c = ' ' || c = '+' || c = '-' || c = '*' ||
  c = '/' || c = '%' || c = '<' || c = '>' || c = '=' || c = '!' || c = '.'

/-- The supported expression subset of the specification: identifiers,
numeric literals, arithmetic and comparison operators (no calls, no
subscripts). -/
def supportedB : PyExpr → Bool
  | .name id => identOkB id
  | .num _ => true
  | .binop _ l r => supportedB l && supportedB r
  | .cmp _ l r => supportedB l && supportedB r
  | .call _ _ => false
  | .subscript _ _ => false

/-! ## Malformed target texts (extra statement inside a branch) -/

/-- A target text whose true branch holds an extra statement `x` before
its `return`: `if (c) \x7b x; return t; \x7d else \x7b return f; \x7d`. -/
def tBadTrue (c x t f : List Char) : List Char :=
  ("if (").data ++ c ++ (") \x7b ").data ++ x ++ ("; return ").data ++ t ++
    ("; \x7d else \x7b return ").data ++ f ++ ("; \x7d").data

/-- A target text whose else branch holds an extra statement `x` before
its `return`: `if (c) \x7b return t; \x7d else \x7b x; return f; \x7d`. -/
def tBadFalse (c x t f : List Char) : List Char :=
  ("if (").data ++ c ++ (") \x7b return ").data ++ t ++
    ("; \x7d else \x7b ").data ++ x ++ ("; return ").data ++ f ++ ("; \x7d").data

/-! ## Concrete sample functions (used by witnesses and counterexamples) -/

/-- The `add_mul` function of `original.py`:
`if a > b: return a * b + 1 else: return a + b`. -/
def addMulNode : FunctionDefNode where
  name := "add_mul"
  args := { args := ["a", "b"] }
  body := [.ifStmt (.cmp .gt (.name "a") (.name "b"))
    [.ret (some (.binop .add (.binop .mul (.name "a") (.name "b")) (.num 1)))]
    [.ret (some (.binop .add (.name "a") (.name "b")))]]

/-- The `is_sum_even` function of `original.py`:
`if (int(a) + int(b)) % 2 == 0: return 1 else: return 0` — its condition
contains `ast.Call` nodes, which are outside the supported expression
grammar. -/
def isSumEvenNode : FunctionDefNode where
  name := "is_sum_even"
  args := { args := ["a", "b"] }
  body := [.ifStmt
    (.cmp .eq
      (.binop .mod
        (.binop .add (.call (.name "int") [.name "a"])
          (.call (.name "int") [.name "b"]))
        (.num 2))
      (.num 0))
    [.ret (some (.num 1))] [.ret (some (.num 0))]]

/-- A supported-shape function whose name contains the substring `if`. -/
def xifNode : FunctionDefNode where
  name := "xif"
  args := { args := ["a", "b"] }
  body := [.ifStmt (.cmp .gt (.name "a") (.name "b"))
    [.ret (some (.num 1))] [.ret (some (.num 2))]]

/-- A function whose signature uses a default value, a variadic parameter
and a keyword-only parameter. -/
def defaultedNode : FunctionDefNode where
  name := "with_default"
  args := { args := ["a", "b"], defaults := 1, vararg := some "rest",
            kwonlyargs := ["k"], kw_defaults := 1 }
  body := [.ifStmt (.cmp .gt (.name "a") (.name "b"))
    [.ret (some (.num 1))] [.ret (some (.num 2))]]

/-- A function with a statement preceding its conditional. -/
def stmtBeforeIfNode : FunctionDefNode where
  name := "leading_stmt"
  args := { args := ["a", "b"] }
  body := [.assign "z" (.num 3),
    .ifStmt (.cmp .gt (.name "a") (.name "b"))
      [.ret (some (.num 1))] [.ret (some (.num 2))]]

/-- A function whose body is two sequential `return` statements and no
conditional. -/
def twoReturnsNode : FunctionDefNode where
  name := "two_returns"
  args := { args := ["a", "b"] }
  body := [.ret (some (.num 1)), .ret (some (.num 2))]

/-- A function whose conditional has no else branch. -/
def noElseNode : FunctionDefNode where
  name := "no_else"
  args := { args := ["a", "b"] }
  body := [.ifStmt (.cmp .gt (.name "a") (.name "b"))
    [.ret (some (.num 1))] []]

/-- The base module of `original.py`: `add_mul` followed by
`is_sum_even`. -/
def originalModule : List TopItem :=
  [.funcDef addMulNode, .funcDef isSumEvenNode]

/-- A round-tripped replacement definition for `add_mul` (as would be
produced by executing a round-tripped source file: one function
definition binding the target name). -/
def roundtrippedAddMul : FunctionDefNode where
  name := "add_mul"
  args := { args := ["a", "b"] }
  body := [.ifStmt (.cmp .gt (.name "a") (.name "b"))
    [.ret (some (.binop .add (.binop .mul (.name "a") (.name "b")) (.num 1)))]
    [.ret (some (.binop .add (.name "a") (.name "b")))]]

/-- Whether a module body contains any function definition. -/
def hasFuncDef : List TopItem → Bool
  | [] => false
  | .funcDef _ :: _ => true
  | .other :: r => hasFuncDef r

/-- Whether a module body contains a function definition named `n`. -/
def namedIn (n : String) : List TopItem → Bool
  | [] => false
  | .funcDef fd :: r => fd.name == n || namedIn n r
  | .other :: r => namedIn n r

/-! # Theorems -/

/-! ## C2: preservation verdict and exit status -/

/-- C2: the overall preservation verdict is true iff both the C-derived
and the Java-derived oracle runs report success (a single failure makes it
false; the verdict is computed once, with no retry), and the process exit
status is `0` exactly when the verdict is true and `2` otherwise. -/
theorem preservation_verdict_and_exit (res_c res_j : TestRunResult) :
    (mainPreserved res_c res_j = true ↔
      (res_c.wasSuccessful = true ∧ res_j.wasSuccessful = true)) ∧
    (mainExitCode res_c res_j = 0 ↔ mainPreserved res_c res_j = true) ∧
    (mainExitCode res_c res_j = 2 ↔ mainPreserved res_c res_j = false) := by
  refine ⟨by simp [mainPreserved], ?_, ?_⟩ <;>
    cases h : mainPreserved res_c res_j <;> simp [mainExitCode, h]

/-! ## C10: the two reverse-extractor/renderer compositions agree -/

/-- C10 (amended): `java_to_python` and `c_to_python` compute the same
function up to the error message: on any one input text they succeed on
exactly the same inputs and produce identical round-tripped source texts
(both search the same `IF_RETURN_PATTERN` and render the same template).
The two texts the pipeline round-trips for one extracted shape come from
two different input texts (the C and the Java emission), so their
identity does not follow — and fails, as the separate counterexample
shows. -/
theorem java_to_python_eq_c_to_python (t n : String) :
    (java_to_python t n).toOption = (c_to_python t n).toOption ∧
    (java_to_python t n).isOk = (c_to_python t n).isOk := by
  simp only [java_to_python, c_to_python]
  cases h : patSearch t.data with
  | none => exact ⟨rfl, rfl⟩
  | some r => obtain ⟨c, tt, ff⟩ := r; exact ⟨rfl, rfl⟩

/-- Counterexample to C10's final conclusion: for the extracted shape
`xif` (supported expressions throughout) both pipelines succeed end to
end, yet the round-tripped Python source text derived from the C emission
differs from the one derived from the Java emission — the condition
captures embed the two templates' different indentation, so the two
rendered texts are not identical. -/
theorem roundtrip_texts_differ_on_xif :
    ∃ ct jt rc rj : String,
      generate_c_code (mkInfo xifNode) = .ok ct ∧
      generate_java_code (mkInfo xifNode) = .ok jt ∧
      c_to_python ct "xif" = .ok rc ∧
      java_to_python jt "xif" = .ok rj ∧
      rc ≠ rj := by
  refine ⟨_, _, _, _, rfl, rfl, by rfl, by rfl, by decide⟩

/-! ## C3: module patching -/

/-- C3: the patched module binds the round-tripped definition over the
target function name only, on top of the fully initialized base module:
every other name keeps its base-module definition, and a second
verification run rebuilds its patched module from the unmodified base
source, so its result does not depend on any earlier run's patching. -/
theorem roundtrip_patching (base : List TopItem) (rtFd : FunctionDefNode)
    (oracle : List (String × FunctionDefNode) → Bool) :
    List.lookup rtFd.name (execInto (execInto [] base) [.funcDef rtFd]) =
      some rtFd ∧
    (∀ n, n ≠ rtFd.name →
      List.lookup n (execInto (execInto [] base) [.funcDef rtFd]) =
        List.lookup n (execInto [] base)) ∧
    (∀ rt1 sys1 sys2,
      (run_tests_with_roundtrip [.funcDef rtFd] base oracle
          (run_tests_with_roundtrip rt1 base oracle sys1).2).1 =
        (run_tests_with_roundtrip [.funcDef rtFd] base oracle sys2).1) := by
  refine ⟨?_, ?_, ?_⟩
  · simp [execInto, List.lookup]
  · intro n hn
    have hb : (n == rtFd.name) = false := beq_eq_false_iff_ne.mpr hn
    simp [execInto, List.lookup, hb]
  · intro rt1 sys1 sys2; rfl

/-- Witness for C3 at the concrete `original.py` module: patching
`add_mul` leaves `is_sum_even` bound to its original definition. -/
theorem roundtrip_patching_witness :
    List.lookup "add_mul"
        (execInto (execInto [] originalModule) [.funcDef roundtrippedAddMul]) =
      some roundtrippedAddMul ∧
    List.lookup "is_sum_even"
        (execInto (execInto [] originalModule) [.funcDef roundtrippedAddMul]) =
      List.lookup "is_sum_even" (execInto [] originalModule) :=
  ⟨(roundtrip_patching originalModule roundtrippedAddMul (fun _ => true)).1,
   (roundtrip_patching originalModule roundtrippedAddMul (fun _ => true)).2.1
     "is_sum_even" (by decide)⟩

/-! ## C6: signatures are not validated -/

/-- C6 (amended): `parse_python_function` performs no signature check at
all: a function whose signature carries default values, a variadic
parameter or keyword-only parameters is extracted without error (there is
no `UnsupportedSignature` failure in the code), and the reported
parameters are exactly the plain positional `args.args` names in
declaration order (defaults are ignored; variadic and keyword-only names
are silently dropped). -/
theorem parse_accepts_any_signature (path nm : String)
    (pos args kwonly : List String) (va kw : Option String) (nkd nd : Nat)
    (body : List PyStmt) (rest : List TopItem) :
    parse_python_function path
        (.funcDef ⟨nm, ⟨pos, args, va, kwonly, nkd, kw, nd⟩, body⟩ :: rest)
        none =
      .ok (mkInfo ⟨nm, ⟨pos, args, va, kwonly, nkd, kw, nd⟩, body⟩) ∧
    (mkInfo ⟨nm, ⟨pos, args, va, kwonly, nkd, kw, nd⟩, body⟩).args = args :=
  ⟨rfl, rfl⟩

/-- Counterexample to C6 as stated: a function with a default value, a
variadic parameter and a keyword-only parameter is extracted successfully
(no `UnsupportedSignature` error), against the claim that extraction
fails. -/
theorem parse_defaulted_signature_succeeds :
    parse_python_function "original.py" [.funcDef defaultedNode] none =
      .ok (mkInfo defaultedNode) ∧
    (mkInfo defaultedNode).args = ["a", "b"] :=
  ⟨rfl, rfl⟩

/-! ## C7: which error a failed lookup raises -/

/-- Once some function definition has been recorded in `first`, a failing
named scan always ends in the `NotFound`-style `RuntimeError`. -/
theorem ppfLoop_some_first (path n : String) (body : List TopItem)
    (f0 : FunctionDefNode) (h : namedIn n body = false) :
    ppfLoop path body (some n) (some f0) =
      .error (.runtime (notFoundMsg n path)) := by
  induction body generalizing f0 with
  | nil => rfl
  | cons it rest ih =>
    cases it with
    | funcDef fd =>
      have h' : (fd.name == n) = false ∧ namedIn n rest = false := by
        simpa [namedIn, Bool.or_eq_false_iff] using h
      have hne : ¬(fd.name = n) := by
        intro he; simp [he] at h'
      simp [ppfLoop, hne]
      exact ih (Option.getD (some f0) fd) h'.2
    | other =>
      have h' : namedIn n rest = false := by simpa [namedIn] using h
      simpa [ppfLoop] using ih f0 h'

/-- C7 (amended): when a requested name is absent, `parse_python_function`
fails with the `NotFound`-style error only when the source defines at
least one function; when the source defines zero functions it fails with
the `NoFunctionFound`-style error even though a name was given.  Without a
requested name, a source with zero functions fails with the
`NoFunctionFound`-style error. -/
theorem parse_missing_name_error (path n : String) (body : List TopItem) :
    (namedIn n body = false →
      parse_python_function path body (some n) =
        .error (.runtime
          (if hasFuncDef body then notFoundMsg n path
           else noFunctionMsg path))) ∧
    (hasFuncDef body = false →
      parse_python_function path body none =
        .error (.runtime (noFunctionMsg path))) := by
  constructor
  · intro h
    induction body with
    | nil => rfl
    | cons it rest ih =>
      cases it with
      | funcDef fd =>
        have h' : (fd.name == n) = false ∧ namedIn n rest = false := by
          simpa [namedIn, Bool.or_eq_false_iff] using h
        have hne : ¬(fd.name = n) := by
          intro he; simp [he] at h'
        simp [parse_python_function, ppfLoop, hne, hasFuncDef]
        exact ppfLoop_some_first path n rest fd h'.2
      | other =>
        have h' : namedIn n rest = false := by simpa [namedIn] using h
        simpa [parse_python_function, ppfLoop, hasFuncDef] using ih h'
  · intro h
    induction body with
    | nil => rfl
    | cons it rest ih =>
      cases it with
      | funcDef fd => simp [hasFuncDef] at h
      | other =>
        have h' : hasFuncDef rest = false := by simpa [hasFuncDef] using h
        simpa [parse_python_function, ppfLoop] using ih h'

/-- Witness for C7 (amended): looking up the absent name `missing` in
`original.py` (which defines two functions) raises the `NotFound`-style
error; parsing an empty module without a name raises the
`NoFunctionFound`-style error. -/
theorem parse_missing_name_error_witness :
    parse_python_function "original.py" originalModule (some "missing") =
      .error (.runtime (notFoundMsg "missing" "original.py")) ∧
    parse_python_function "original.py" [] none =
      .error (.runtime (noFunctionMsg "original.py")) := by
  constructor
  · have := (parse_missing_name_error "original.py" "missing"
      originalModule).1 (by decide)
    simpa using this
  · exact (parse_missing_name_error "original.py" "missing" []).2 rfl

/-- Counterexample to C7 as stated: a named lookup in a source with zero
functions fails with the `NoFunctionFound`-style `RuntimeError`
(`'No function found in ...'`), not the `NotFound`-style one the claim
asserts. -/
theorem parse_named_empty_module_error :
    parse_python_function "original.py" [] (some "add_mul") =
      .error (.runtime (noFunctionMsg "original.py")) ∧
    noFunctionMsg "original.py" ≠ notFoundMsg "add_mul" "original.py" :=
  ⟨rfl, by decide⟩

/-! ## C4: body-shape validation -/

/-- `stmts[0]` only ever raises `IndexError`. -/
theorem item0_error {l : List PyStmt} {e : PyRunErr}
    (h : item0 l = .error e) : e = .indexError := by
  cases l <;> simp [item0] at h <;> simp [h]

/-- `.value` only ever raises `AttributeError`. -/
theorem stmtValue_error {s : PyStmt} {e : PyRunErr}
    (h : stmtValue s = .error e) : e = .attributeError := by
  cases s <;> simp [stmtValue] at h <;> simp [h]

/-- Once a first `ast.If` is found, `generate_c_code` either raises
`IndexError`, raises `AttributeError`, or succeeds — never the
`Unsupported function body` `RuntimeError`. -/
theorem generate_c_code_after_if (info : FunctionDefInfo)
    (test : PyExpr) (thenB elseB : List PyStmt)
    (h : firstIf info.ast.body = some (test, thenB, elseB)) :
    generate_c_code info = .error .indexError ∨
    generate_c_code info = .error .attributeError ∨
    (generate_c_code info).isOk = true := by
  simp only [generate_c_code, h]
  cases h1 : item0 thenB with
  | error e1 =>
    rcases item0_error h1 with rfl
    left; simp [bind, Except.bind, h1]
  | ok s1 =>
    cases h2 : stmtValue s1 with
    | error e2 =>
      rcases stmtValue_error h2 with rfl
      right; left; simp [bind, Except.bind, h1, h2]
    | ok v1 =>
      cases h3 : item0 elseB with
      | error e3 =>
        rcases item0_error h3 with rfl
        left; simp [bind, Except.bind, h1, h2, h3]
      | ok s2 =>
        cases h4 : stmtValue s2 with
        | error e4 =>
          rcases stmtValue_error h4 with rfl
          right; left; simp [bind, Except.bind, h1, h2, h3, h4]
        | ok v2 =>
          right; right
          simp [bind, Except.bind, h1, h2, h3, h4, pure, Except.pure, Except.isOk, Except.toBool]

/-- Same classification for `generate_java_code`. -/
theorem generate_java_code_after_if (info : FunctionDefInfo)
    (test : PyExpr) (thenB elseB : List PyStmt)
    (h : firstIf info.ast.body = some (test, thenB, elseB)) :
    generate_java_code info = .error .indexError ∨
    generate_java_code info = .error .attributeError ∨
    (generate_java_code info).isOk = true := by
  simp only [generate_java_code, h]
  cases h1 : item0 thenB with
  | error e1 =>
    rcases item0_error h1 with rfl
    left; simp [bind, Except.bind, h1]
  | ok s1 =>
    cases h2 : stmtValue s1 with
    | error e2 =>
      rcases stmtValue_error h2 with rfl
      right; left; simp [bind, Except.bind, h1, h2]
    | ok v1 =>
      cases h3 : item0 elseB with
      | error e3 =>
        rcases item0_error h3 with rfl
        left; simp [bind, Except.bind, h1, h2, h3]
      | ok s2 =>
        cases h4 : stmtValue s2 with
        | error e4 =>
          rcases stmtValue_error h4 with rfl
          right; left; simp [bind, Except.bind, h1, h2, h3, h4]
        | ok v2 =>
          right; right
          simp [bind, Except.bind, h1, h2, h3, h4, pure, Except.pure, Except.isOk, Except.toBool]

/-- C4 (amended): the emitters fail with the
`Unsupported function body` `RuntimeError` exactly when the body holds no
top-level `ast.If` at all (so two sequential returns do fail that way);
when an `If` exists, the first one is used whatever statements surround
it, and the branch shapes are not validated — in particular a conditional
without an else branch raises `IndexError` instead. -/
theorem body_shape_validation (info : FunctionDefInfo) :
    (generate_c_code info =
        .error (.runtime "Unsupported function body for C generation") ↔
      firstIf info.ast.body = none) ∧
    (generate_java_code info =
        .error (.runtime "Unsupported function body for Java generation") ↔
      firstIf info.ast.body = none) ∧
    (∀ test v restT,
      firstIf info.ast.body = some (test, .ret v :: restT, []) →
        generate_c_code info = .error .indexError) := by
  refine ⟨?_, ?_, ?_⟩
  · constructor
    · intro hc
      cases h : firstIf info.ast.body with
      | none => rfl
      | some r =>
        obtain ⟨test, thenB, elseB⟩ := r
        rcases generate_c_code_after_if info test thenB elseB h with h' | h' | h' <;>
          rw [hc] at h' <;> simp_all [Except.isOk, Except.toBool]
    · intro h; simp [generate_c_code, h]
  · constructor
    · intro hc
      cases h : firstIf info.ast.body with
      | none => rfl
      | some r =>
        obtain ⟨test, thenB, elseB⟩ := r
        rcases generate_java_code_after_if info test thenB elseB h with h' | h' | h' <;>
          rw [hc] at h' <;> simp_all [Except.isOk, Except.toBool]
    · intro h; simp [generate_java_code, h]
  · intro test v restT h
    simp [generate_c_code, h, item0, stmtValue, bind, Except.bind]

/-- Witness for C4 (amended): a body of two sequential returns fails with
the `Unsupported function body` error, and a conditional without an else
branch fails with `IndexError`. -/
theorem body_shape_validation_witness :
    generate_c_code (mkInfo twoReturnsNode) =
      .error (.runtime "Unsupported function body for C generation") ∧
    generate_c_code (mkInfo noElseNode) = .error .indexError :=
  ⟨(body_shape_validation (mkInfo twoReturnsNode)).1.mpr rfl,
   (body_shape_validation (mkInfo noElseNode)).2.2
     (.cmp .gt (.name "a") (.name "b")) (some (.num 1)) [] rfl⟩

/-- Counterexample to C4 as stated: a function whose body has a statement
preceding the conditional is not rejected — both emitters succeed, against
the claim that any body other than a single top-level conditional fails
with `UnsupportedBodyShape`. -/
theorem leading_statement_accepted :
    (generate_c_code (mkInfo stmtBeforeIfNode)).isOk = true ∧
    (generate_java_code (mkInfo stmtBeforeIfNode)).isOk = true :=
  ⟨rfl, rfl⟩

/-! ## C5: expression validation -/

/-- C5 (amended): expression rendering never fails and performs no grammar
check: for any body of the single-conditional shape the emitters succeed
whatever the condition and return expressions are — including `ast.Call`
or `ast.Subscript` nodes, which `ast.unparse` renders verbatim.  There is
no `UnsupportedExpression` failure in the code. -/
theorem expressions_not_validated (info : FunctionDefInfo)
    (test : PyExpr) (tv fv : Option PyExpr)
    (h : info.ast.body = [.ifStmt test [.ret tv] [.ret fv]]) :
    (generate_c_code info).isOk = true ∧
    (generate_java_code info).isOk = true := by
  constructor <;>
    simp [generate_c_code, generate_java_code, h, firstIf, item0, stmtValue,
      bind, Except.bind, pure, Except.pure, Except.isOk, Except.toBool]

/-- Witness for C5 (amended): the emitters succeed on `is_sum_even`, whose
condition contains two function calls. -/
theorem expressions_not_validated_witness :
    (generate_c_code (mkInfo isSumEvenNode)).isOk = true ∧
    (generate_java_code (mkInfo isSumEvenNode)).isOk = true :=
  expressions_not_validated (mkInfo isSumEvenNode)
    (.cmp .eq
      (.binop .mod
        (.binop .add (.call (.name "int") [.name "a"])
          (.call (.name "int") [.name "b"]))
        (.num 2))
      (.num 0))
    (some (.num 1)) (some (.num 0)) rfl

/-- Counterexample to C5 as stated: extraction of `is_sum_even` (function
calls in its condition) succeeds — `int(a)` is rendered verbatim into the
C text — against the claim that it fails with `UnsupportedExpression`. -/
theorem call_expression_rendered_verbatim :
    (generate_c_code (mkInfo isSumEvenNode)).isOk = true ∧
    expr_to_source (some (.call (.name "int") [.name "a"])) =
      ("int(a)").data :=
  ⟨rfl, rfl⟩

/-! ## C1: the counterexample -/

/-- Counterexample to C1 as stated: the `FunctionShape` named `xif` has
fully supported expressions (`a > b`, `1`, `2`), yet on the C text that
`generate_c_code` emits, `IF_RETURN_PATTERN.search` matches starting at
the `if` inside the identifier `xif` in `double xif(double a, double b)`,
and the captured condition is
`double a, double b) \x7b\n    if (a > b` — not the rendered condition
`a > b`.  (The true/false captures happen to coincide.) -/
theorem emitter_pattern_mismatch_on_xif :
    supportedB (.cmp .gt (.name "a") (.name "b")) = true ∧
    supportedB (.num 1) = true ∧
    supportedB (.num 2) = true ∧
    (generate_c_code (mkInfo xifNode)).map (fun s => patSearch s.data) =
      .ok (some (("double a, double b) \x7b\n    if (a > b").data,
        ("1").data, ("2").data)) ∧
    ("double a, double b) \x7b\n    if (a > b").data ≠
      expr_to_source (some (.cmp .gt (.name "a") (.name "b"))) := by
  refine ⟨rfl, rfl, rfl, by rfl, by decide⟩

/-! ## Lemmas about the pattern matcher -/

/-- A literal matches the text it is a prefix of. -/
theorem lit_self (p s : List Char) : lit p (p ++ s) = some s := by
  induction p with
  | nil => rfl
  | cons c cs ih => simp [lit, ih]

/-- A successful literal match decomposes the text. -/
theorem lit_eq_some {p s r : List Char} (h : lit p s = some r) : s = p ++ r := by
  induction p generalizing s with
  | nil => cases s <;> simp [lit] at h <;> simp [h]
  | cons c cs ih =>
    cases s with
    | nil => simp [lit] at h
    | cons d ds =>
      by_cases hd : c = d
      · subst hd
        simp only [lit, if_pos rfl] at h
        simp [ih h]
      · simp [lit, hd] at h

/-- Skipping whitespace before a non-whitespace character. -/
theorem skipWs_ws_cons (w : List Char) (c : Char) (s : List Char)
    (hw : ∀ d ∈ w, isWsRe d = true) (hc : isWsRe c = false) :
    skipWs (w ++ c :: s) = c :: s := by
  simp only [skipWs, List.dropWhile_append_of_pos hw]
  exact List.dropWhile_cons_of_neg (by simp [hc])

/-- `skipWs` ignores a leading whitespace character. -/
theorem skipWs_cons_ws {c : Char} (s : List Char) (hc : isWsRe c = true) :
    skipWs (c :: s) = skipWs s :=
  List.dropWhile_cons_of_pos (by simp [hc])

/-- The capture of `\s+(?P<cap>[^;]+);` on a well-formed clause: one or
more whitespace characters, a capture with no `;`, the terminating `;`. -/
theorem retCapture_exact (w T rest : List Char)
    (hw : w ≠ []) (hwall : ∀ d ∈ w, isWsRe d = true)
    (hT : T ≠ []) (hThead : isWsRe (T.headD ' ') = false)
    (hTsemi : ∀ d ∈ T, ¬ d = ';') :
    retCapture (w ++ (T ++ ';' :: rest)) = some (T, rest) := by
  cases T with
  | nil => exact absurd rfl hT
  | cons c T' =>
    have hc : isWsRe c = false := by simpa using hThead
    have hcsemi : ¬ c = ';' := hTsemi c (by simp)
    have hTall : ∀ d ∈ c :: T', (fun d => !(d = ';')) d = true := by
      intro d hd; simpa using hTsemi d hd
    have htake : (w ++ ((c :: T') ++ ';' :: rest)).takeWhile isWsRe = w := by
      rw [List.takeWhile_append_of_pos hwall, List.cons_append,
        List.takeWhile_cons_of_neg (by simp [hc]), List.append_nil]
    have hdrop : (w ++ ((c :: T') ++ ';' :: rest)).dropWhile isWsRe =
        (c :: T') ++ ';' :: rest := by
      rw [List.dropWhile_append_of_pos hwall, List.cons_append,
        List.dropWhile_cons_of_neg (by simp [hc])]
    cases w with
    | nil => exact absurd rfl hw
    | cons w0 w' =>
      simp only [retCapture, List.cons_append] at htake hdrop ⊢
      rw [htake, hdrop]
      simp only [if_neg hcsemi]
      rw [List.dropWhile_cons_of_pos (by simpa using hcsemi),
        List.dropWhile_append_of_pos (fun d hd => hTall d (by simp [hd])),
        List.dropWhile_cons_of_neg (by simp),
        List.takeWhile_cons_of_pos (by simpa using hcsemi),
        List.takeWhile_append_of_pos (fun d hd => hTall d (by simp [hd])),
        List.takeWhile_cons_of_neg (by simp)]
      simp

/-- A full well-formed `return` clause:
whitespace, `return`, mandatory whitespace, capture, `;`. -/
theorem retClause_exact (W w T rest : List Char)
    (hW : ∀ d ∈ W, isWsRe d = true)
    (hw : w ≠ []) (hwall : ∀ d ∈ w, isWsRe d = true)
    (hT : T ≠ []) (hThead : isWsRe (T.headD ' ') = false)
    (hTsemi : ∀ d ∈ T, ¬ d = ';') :
    retClause (W ++ ("return").data ++ (w ++ (T ++ ';' :: rest))) =
      some (T, rest) := by
  have hskip : skipWs (W ++ ("return").data ++ (w ++ (T ++ ';' :: rest))) =
      ("return").data ++ (w ++ (T ++ ';' :: rest)) := by
    rw [List.append_assoc]
    exact skipWs_ws_cons W 'r' _ hW (by decide)
  simp only [retClause, hskip, lit_self, Option.bind_eq_bind, Option.some_bind]
  exact retCapture_exact w T rest hw hwall hT hThead hTsemi

/-- `afterCond` fails whenever, after the leading whitespace, the text
does not start with `\x7b`. -/
theorem afterCond_none (s : List Char) (h : ∀ r, ¬ skipWs s = '\x7b' :: r) :
    afterCond s = none := by
  unfold afterCond
  cases hs : skipWs s with
  | nil => rfl
  | cons c r =>
    have hc : ¬ '\x7b' = c := fun he => h r (by rw [hs, ← he])
    simp [lit, hc]

/-- `afterCond` on the well-formed continuation of an emitted template:
`\s*\x7b` `return`-clause `\s*\x7d\s*else\s*\x7b` `return`-clause
`\s*\x7d`, with the whitespace runs, captures and tails supplied through
staged decomposition equations. -/
theorem afterCond_template (w1 W2 w3 w4 W5 w6 W7 w8 w9 T F rest : List Char)
    (stot s1 s3 s6 s8 : List Char)
    (e1 : stot = w1 ++ '\x7b' :: s1)
    (e2 : s1 = W2 ++ ("return").data ++ (w3 ++ (T ++ ';' :: s3)))
    (e3 : s3 = w4 ++ '\x7d' :: (W5 ++ (("else").data ++ (w6 ++ '\x7b' :: s6))))
    (e4 : s6 = W7 ++ ("return").data ++ (w8 ++ (F ++ ';' :: s8)))
    (e5 : s8 = w9 ++ '\x7d' :: rest)
    (hw1 : ∀ d ∈ w1, isWsRe d = true)
    (hW2 : ∀ d ∈ W2, isWsRe d = true)
    (hw3 : w3 ≠ []) (hw3all : ∀ d ∈ w3, isWsRe d = true)
    (hw4 : ∀ d ∈ w4, isWsRe d = true)
    (hW5 : ∀ d ∈ W5, isWsRe d = true)
    (hw6 : ∀ d ∈ w6, isWsRe d = true)
    (hW7 : ∀ d ∈ W7, isWsRe d = true)
    (hw8 : w8 ≠ []) (hw8all : ∀ d ∈ w8, isWsRe d = true)
    (hw9 : ∀ d ∈ w9, isWsRe d = true)
    (hT : T ≠ []) (hThead : isWsRe (T.headD ' ') = false)
    (hTsemi : ∀ d ∈ T, ¬ d = ';')
    (hF : F ≠ []) (hFhead : isWsRe (F.headD ' ') = false)
    (hFsemi : ∀ d ∈ F, ¬ d = ';') :
    afterCond stot = some (T, F) := by
  subst e1
  unfold afterCond
  rw [skipWs_ws_cons w1 '\x7b' _ hw1 (by decide)]
  rw [show lit ['\x7b'] ('\x7b' :: s1) = some s1 from lit_self ['\x7b'] s1]
  simp only [Option.bind_eq_bind, Option.some_bind]
  rw [e2, retClause_exact W2 w3 T s3 hW2 hw3 hw3all hT hThead hTsemi]
  simp only [Option.some_bind]
  rw [e3, skipWs_ws_cons w4 '\x7d' _ hw4 (by decide)]
  rw [show lit ['\x7d'] ('\x7d' :: (W5 ++ (("else").data ++ (w6 ++ '\x7b' :: s6)))) =
    some (W5 ++ (("else").data ++ (w6 ++ '\x7b' :: s6))) from lit_self ['\x7d'] _]
  simp only [Option.some_bind]
  rw [show skipWs (W5 ++ (("else").data ++ (w6 ++ '\x7b' :: s6))) =
      ("else").data ++ (w6 ++ '\x7b' :: s6) from
    skipWs_ws_cons W5 'e' _ hW5 (by decide)]
  rw [lit_self (("else").data)]
  simp only [Option.some_bind]
  rw [skipWs_ws_cons w6 '\x7b' _ hw6 (by decide)]
  rw [show lit ['\x7b'] ('\x7b' :: s6) = some s6 from lit_self ['\x7b'] s6]
  simp only [Option.some_bind]
  rw [e4, retClause_exact W7 w8 F s8 hW7 hw8 hw8all hF hFhead hFsemi]
  simp only [Option.some_bind]
  rw [e5, skipWs_ws_cons w9 '\x7d' _ hw9 (by decide)]
  rw [show lit ['\x7d'] ('\x7d' :: rest) = some rest from lit_self ['\x7d'] rest]
  rfl

/-- After a `)` that lies inside an expression (so is followed by
expression characters only), the continuation cannot match: the next
non-whitespace character is never `\x7b`. -/
theorem inner_stop_fails (v rest : List Char)
    (hv : ∀ d ∈ v, exprOkChar d = true) :
    afterCond (v ++ ')' :: rest) = none := by
  apply afterCond_none
  intro r hsk
  rw [skipWs, List.dropWhile_append] at hsk
  by_cases hdv : (v.dropWhile isWsRe).isEmpty
  · rw [if_pos hdv, List.dropWhile_cons_of_neg (by decide)] at hsk
    cases hsk
  · rw [if_neg hdv] at hsk
    cases hdvc : v.dropWhile isWsRe with
    | nil => simp [hdvc] at hdv
    | cons d dr =>
      rw [hdvc] at hsk
      have hd : d = '\x7b' := by
        have := congrArg (fun l => l.headD ' ') hsk
        simpa using this
      have hmem : d ∈ v := by
        have : v = v.takeWhile isWsRe ++ (d :: dr) := by
          rw [← hdvc]; exact (List.takeWhile_append_dropWhile isWsRe v).symm
        rw [this]
        exact List.mem_append_right _ (by simp)
      have := hv d hmem
      rw [hd] at this
      simp [exprOkChar] at this

/-- `stopCheck` ignores a leading whitespace character of the text. -/
theorem stopCheck_cons_ws (acc : List Char) {c : Char} (s : List Char)
    (hc : isWsRe c = true) : stopCheck acc (c :: s) = stopCheck acc s := by
  unfold stopCheck
  rw [skipWs_cons_ws s hc]

/-- The first element remaining after `dropWhile` fails the predicate. -/
theorem dropWhile_head_not {α : Type} {p : α → Bool} {l : List α} {d : α}
    {dr : List α} (h : l.dropWhile p = d :: dr) : p d = false := by
  induction l with
  | nil => simp [List.dropWhile] at h
  | cons c cs ih =>
    by_cases hc : p c
    · rw [List.dropWhile_cons_of_pos hc] at h; exact ih h
    · rw [List.dropWhile_cons_of_neg hc] at h
      cases h
      simpa using hc

/-- `stopCheck` fails while some non-whitespace of the condition region is
still ahead: the stop either faces a non-`)` character or an inner `)`
whose continuation cannot match. -/
theorem stopCheck_none_within (acc C rest : List Char)
    (hC : ∀ d ∈ C, exprOkChar d = true)
    (hne : C.dropWhile isWsRe ≠ []) :
    stopCheck acc (C ++ ')' :: rest) = none := by
  cases hdvc : C.dropWhile isWsRe with
  | nil => exact absurd hdvc hne
  | cons d dr =>
    have hCdec : C = C.takeWhile isWsRe ++ (d :: dr) := by
      rw [← hdvc]; exact (List.takeWhile_append_dropWhile isWsRe C).symm
    have hskip : skipWs (C ++ ')' :: rest) = d :: (dr ++ ')' :: rest) := by
      rw [skipWs, List.dropWhile_append, if_neg (by simp [hdvc]), hdvc]
      simp
    unfold stopCheck
    rw [hskip]
    show (if d = ')' then
        (match afterCond (dr ++ ')' :: rest) with
          | some (t, f) => some (acc, t, f)
          | none => none)
      else none) = none
    by_cases hd : d = ')'
    · rw [if_pos hd, inner_stop_fails dr rest
        (fun e he => hC e (by rw [hCdec]; exact List.mem_append_right _ (by simp [he])))]
    · rw [if_neg hd]

/-- One-step unfolding of `lazyCond` on a non-empty text. -/
theorem lazyCond_cons (acc : List Char) (c : Char) (s' : List Char) :
    lazyCond acc (c :: s') =
      match stopCheck acc (c :: s') with
      | some r => some r
      | none => lazyCond (acc ++ [c]) s' := rfl

/-- When every stop position fails (every `)` in the text has a
non-matching continuation), the lazy condition capture fails. -/
theorem lazyCond_none_of_stops (s : List Char) (acc : List Char)
    (h : ∀ u v, s = u ++ ')' :: v → afterCond v = none) :
    lazyCond acc s = none := by
  induction s generalizing acc with
  | nil => rfl
  | cons c s' ih =>
    have hstop : stopCheck acc (c :: s') = none := by
      unfold stopCheck
      cases hsk : skipWs (c :: s') with
      | nil => rfl
      | cons d r =>
        show (if d = ')' then
            (match afterCond r with
              | some (t, f) => some (acc, t, f)
              | none => none)
          else none) = none
        by_cases hd : d = ')'
        · subst hd
          have hsplit : c :: s' = (c :: s').takeWhile isWsRe ++ ')' :: r := by
            conv_lhs => rw [← List.takeWhile_append_dropWhile isWsRe (c :: s')]
            rw [show (c :: s').dropWhile isWsRe = ')' :: r from hsk]
          rw [if_pos rfl, h _ _ hsplit]
        · rw [if_neg hd]
    rw [lazyCond_cons, hstop]
    exact ih (acc ++ [c])
      (fun u v huv => h (c :: u) v (by rw [huv, List.cons_append]))

/-- The lazy capture walks through the whole condition region (whose inner
stops all fail) and stops exactly at the closing `)`, capturing the
region. -/
theorem lazyCond_exact (C rest t f : List Char) (acc : List Char)
    (hC : ∀ d ∈ C, exprOkChar d = true)
    (hlast : ∀ e, C.getLast? = some e → isWsRe e = false)
    (hAC : afterCond rest = some (t, f)) :
    lazyCond acc (C ++ ')' :: rest) = some (acc ++ C, t, f) := by
  induction C generalizing acc with
  | nil =>
    have hsc : stopCheck acc (')' :: rest) = some (acc, t, f) := by
      unfold stopCheck
      rw [show skipWs (')' :: rest) = ')' :: rest from
        List.dropWhile_cons_of_neg (by decide)]
      show (if ')' = ')' then
          (match afterCond rest with
            | some (t, f) => some (acc, t, f)
            | none => none)
        else none) = some (acc, t, f)
      rw [if_pos rfl, hAC]
    rw [List.nil_append, lazyCond_cons, hsc, List.append_nil]
  | cons c C' ih =>
    have hstop : stopCheck acc ((c :: C') ++ ')' :: rest) = none := by
      by_cases hcw : isWsRe c = true
      · have hC'ne : C' ≠ [] := by
          intro he
          have := hlast c (by simp [he])
          rw [this] at hcw; cases hcw
        have hdne : C'.dropWhile isWsRe ≠ [] := by
          intro hall
          have hallws : ∀ d ∈ C', isWsRe d = true := by
            simpa using (List.dropWhile_eq_nil_iff).mp hall
          cases C' with
          | nil => exact hC'ne rfl
          | cons c2 C'' =>
            have h1 : isWsRe ((c2 :: C'').getLast (by simp)) = false :=
              hlast _ (by
                rw [List.getLast?_cons_cons]
                exact List.getLast?_eq_getLast _ (by simp))
            have h2 : isWsRe ((c2 :: C'').getLast (by simp)) = true :=
              hallws _ (List.getLast_mem _)
            rw [h1] at h2
            cases h2
        rw [List.cons_append, stopCheck_cons_ws acc _ hcw]
        exact stopCheck_none_within acc C' rest
          (fun d hd => hC d (by simp [hd])) hdne
      · exact stopCheck_none_within acc (c :: C') rest hC
          (by rw [List.dropWhile_cons_of_neg (by simpa using hcw)]; simp)
    rw [List.cons_append] at hstop ⊢
    rw [lazyCond_cons, hstop]
    show lazyCond (acc ++ [c]) (C' ++ ')' :: rest) = some (acc ++ c :: C', t, f)
    rw [ih (acc ++ [c]) (fun d hd => hC d (by simp [hd]))
      (fun e he => hlast e (by
        cases C' with
        | nil => simp at he
        | cons c2 C'' => rwa [List.getLast?_cons_cons]))]
    rw [← List.append_cons]

/-- One-step unfolding of `patSearch` on a non-empty text. -/
theorem patSearch_cons (c : Char) (s' : List Char) :
    patSearch (c :: s') =
      match patMatchAt (c :: s') with
      | some r => some r
      | none => patSearch s' := rfl

/-- A successful match at the current position is the search result. -/
theorem patSearch_of_matchAt {s : List Char}
    {r : List Char × List Char × List Char} (h : patMatchAt s = some r) :
    patSearch s = some r := by
  cases s with
  | nil => rw [show patSearch [] = patMatchAt [] from rfl, h]
  | cons c s' => rw [patSearch_cons, h]

/-- The match attempt fails on any text that does not start with `if`. -/
theorem patMatchAt_none_not_if (s : List Char)
    (h : ∀ r, s ≠ 'i' :: 'f' :: r) : patMatchAt s = none := by
  unfold patMatchAt
  cases s with
  | nil => rfl
  | cons c cs =>
    by_cases hc : c = 'i'
    · subst hc
      cases cs with
      | nil => rfl
      | cons d ds =>
        by_cases hd : d = 'f'
        · exact absurd (by rw [hd]) (h ds)
        · have : ¬ ('f' = d) := fun he => hd he.symm
          simp [lit, this]
    · have : ¬ ('i' = c) := fun he => hc he.symm
      simp [lit, this]

/-- The tail of an `if`-free text is `if`-free. -/
theorem noIfB_tail {c : Char} {s : List Char} (h : noIfB (c :: s) = true) :
    noIfB s = true := by
  cases s with
  | nil => rfl
  | cons c2 r =>
    have := (Bool.and_eq_true _ _).mp h
    exact this.2

/-- Search fails on an `if`-free text. -/
theorem patSearch_none_of_noIf (s : List Char) (h : noIfB s = true) :
    patSearch s = none := by
  induction s with
  | nil => rfl
  | cons c s' ih =>
    have hm : patMatchAt (c :: s') = none := by
      apply patMatchAt_none_not_if
      intro r hr
      rw [hr] at h
      simp [noIfB] at h
    rw [patSearch_cons, hm]
    exact ih (noIfB_tail h)

/-- Search skips over an `if`-free prefix whose junction with the rest
does not form `if` either. -/
theorem patSearch_append_skip (a b : List Char) (ha : noIfB a = true)
    (hj : ¬(a.getLast? = some 'i' ∧ b.head? = some 'f')) :
    patSearch (a ++ b) = patSearch b := by
  induction a with
  | nil => rfl
  | cons c a' ih =>
    have hm : patMatchAt (c :: (a' ++ b)) = none := by
      apply patMatchAt_none_not_if
      intro r hr
      cases a' with
      | nil =>
        rw [List.nil_append] at hr
        have hcb := List.cons_eq_cons.mp hr
        exact hj ⟨by simp [hcb.1], by simp [hcb.2]⟩
      | cons c2 a'' =>
        rw [List.cons_append] at hr
        have h1 := List.cons_eq_cons.mp hr
        have h2 := List.cons_eq_cons.mp h1.2
        rw [h1.1, h2.1] at ha
        simp [noIfB] at ha
    rw [List.cons_append, patSearch_cons, hm]
    cases a' with
    | nil => rfl
    | cons c2 a'' =>
      exact ih (noIfB_tail ha)
        (by rwa [List.getLast?_cons_cons] at hj)

/-- A successful match of the whole pattern at an `if (`: the condition
capture is exactly the region up to the closing `)`, and the two `return`
captures come from the matching continuation. -/
theorem patMatchAt_template (C rest t f : List Char)
    (hC : ∀ d ∈ C, exprOkChar d = true)
    (hChead : isWsRe (C.headD ' ') = false)
    (hlast : ∀ e, C.getLast? = some e → isWsRe e = false)
    (hAC : afterCond rest = some (t, f)) :
    patMatchAt (("if (").data ++ (C ++ ')' :: rest)) = some (C, t, f) := by
  unfold patMatchAt
  rw [show ("if (").data ++ (C ++ ')' :: rest) =
    ("if").data ++ (' ' :: '(' :: (C ++ ')' :: rest)) from rfl]
  rw [lit_self (("if").data)]
  simp only [Option.bind_eq_bind, Option.some_bind]
  rw [show skipWs (' ' :: '(' :: (C ++ ')' :: rest)) =
      '(' :: (C ++ ')' :: rest) from by
    rw [skipWs_cons_ws _ (by decide)]
    exact List.dropWhile_cons_of_neg (by decide)]
  rw [show lit ['('] ('(' :: (C ++ ')' :: rest)) = some (C ++ ')' :: rest) from
    lit_self ['('] _]
  simp only [Option.some_bind]
  have hskipC : skipWs (C ++ ')' :: rest) = C ++ ')' :: rest := by
    cases C with
    | nil => exact absurd hChead (by decide)
    | cons c C' =>
      rw [List.cons_append]
      exact List.dropWhile_cons_of_neg (by simpa using hChead)
  rw [hskipC, lazyCond_exact C rest t f [] hC hlast hAC, List.nil_append]

/-- Splitting at a `)` is unique when neither side contains another
`)`. -/
theorem split_paren_unique {P Q u v : List Char}
    (hP : ∀ d ∈ P, ¬ d = ')') (hQ : ∀ d ∈ Q, ¬ d = ')')
    (h : P ++ ')' :: Q = u ++ ')' :: v) : u = P ∧ v = Q := by
  induction P generalizing u with
  | nil =>
    cases u with
    | nil =>
      rw [List.nil_append, List.nil_append] at h
      exact ⟨rfl, (List.cons_eq_cons.mp h).2.symm⟩
    | cons x u' =>
      rw [List.nil_append, List.cons_append] at h
      have hx := List.cons_eq_cons.mp h
      exact absurd rfl (hQ ')'
        (by rw [hx.2]; exact List.mem_append_right _ (by simp)))
  | cons p P' ih =>
    cases u with
    | nil =>
      rw [List.nil_append, List.cons_append] at h
      exact absurd (List.cons_eq_cons.mp h).1 (hP p (by simp))
    | cons x u' =>
      rw [List.cons_append, List.cons_append] at h
      obtain ⟨h1, h2⟩ := List.cons_eq_cons.mp h
      obtain ⟨hu, hv⟩ := ih (fun d hd => hP d (by simp [hd])) h2
      exact ⟨by rw [hu, h1], hv⟩

/-- Concatenation preserves `if`-freedom when the junction is safe. -/
theorem noIfB_append (a b : List Char) (ha : noIfB a = true)
    (hb : noIfB b = true)
    (hj : ¬(a.getLast? = some 'i' ∧ b.head? = some 'f')) :
    noIfB (a ++ b) = true := by
  induction a with
  | nil => simpa using hb
  | cons c a' ih =>
    cases a' with
    | nil =>
      cases b with
      | nil => rfl
      | cons d b' =>
        show noIfB (c :: d :: b') = true
        have hcd : ¬(c = 'i' ∧ d = 'f') := by
          intro ⟨h1, h2⟩; exact hj ⟨by simp [h1], by simp [h2]⟩
        simp only [noIfB, Bool.and_eq_true, Bool.not_eq_true']
        exact ⟨by
          cases hc : decide (c = 'i') with
          | false => simp [of_decide_eq_false hc]
          | true =>
            have := of_decide_eq_true hc
            simp [this]
            intro hd
            exact absurd ⟨this, hd⟩ hcd, hb⟩
    | cons c2 a'' =>
      show noIfB (c :: c2 :: (a'' ++ b)) = true
      have h1 : (!(c = 'i' && c2 = 'f')) = true := by
        have := (Bool.and_eq_true _ _).mp ha
        exact this.1
      have h2 : noIfB ((c2 :: a'') ++ b) = true :=
        ih (noIfB_tail ha) (by rwa [List.getLast?_cons_cons] at hj)
      rw [List.cons_append] at h2
      simp only [noIfB, Bool.and_eq_true]
      exact ⟨by simpa using h1, h2⟩

/-- `retCapture` on a region free of `;`: either it fails, or its leftover
text is exactly what follows the first `;`. -/
theorem retCapture_first_semi (z Y : List Char)
    (hz : ∀ d ∈ z, ¬ d = ';') :
    retCapture (z ++ ';' :: Y) = none ∨
    ∃ cap, retCapture (z ++ ';' :: Y) = some (cap, Y) := by
  by_cases hall : ∀ d ∈ z, isWsRe d = true
  · have ht : (z ++ ';' :: Y).takeWhile isWsRe = z := by
      rw [List.takeWhile_append_of_pos hall,
        List.takeWhile_cons_of_neg (by decide), List.append_nil]
    have hd : (z ++ ';' :: Y).dropWhile isWsRe = ';' :: Y := by
      rw [List.dropWhile_append_of_pos hall,
        List.dropWhile_cons_of_neg (by decide)]
    cases z with
    | nil =>
      left
      rw [List.nil_append]
      simp [retCapture, List.takeWhile_cons_of_neg, List.dropWhile_cons_of_neg,
        isWsRe]
    | cons z0 z' =>
      simp only [retCapture, ht, hd]
      by_cases hlen : 2 ≤ (z0 :: z').length
      · exact Or.inr ⟨_, by rw [if_pos trivial, if_pos hlen]⟩
      · rw [if_pos trivial, if_neg hlen]; exact Or.inl rfl
  · have hne : z.dropWhile isWsRe ≠ [] := by
      intro he
      exact hall (by simpa using List.dropWhile_eq_nil_iff.mp he)
    cases hdz : z.dropWhile isWsRe with
    | nil => exact absurd hdz hne
    | cons e er =>
      have henws : isWsRe e = false := dropWhile_head_not hdz
      have hzdec : z = z.takeWhile isWsRe ++ (e :: er) := by
        rw [← hdz]; exact (List.takeWhile_append_dropWhile isWsRe z).symm
      have hemem : ∀ d ∈ e :: er, d ∈ z := by
        intro d hd; rw [hzdec]; exact List.mem_append_right _ hd
      have ht : (z ++ ';' :: Y).takeWhile isWsRe = z.takeWhile isWsRe := by
        conv_lhs => rw [hzdec]
        rw [List.append_assoc,
          List.takeWhile_append_of_pos (fun d hd => List.mem_takeWhile_imp hd),
          List.cons_append, List.takeWhile_cons_of_neg (by simp [henws]),
          List.append_nil]
      have hd : (z ++ ';' :: Y).dropWhile isWsRe = (e :: er) ++ ';' :: Y := by
        conv_lhs => rw [hzdec]
        rw [List.append_assoc,
          List.dropWhile_append_of_pos (fun d hd => List.mem_takeWhile_imp hd),
          List.cons_append, List.dropWhile_cons_of_neg (by simp [henws]),
          ← List.cons_append]
      cases htz : z.takeWhile isWsRe with
      | nil =>
        left
        simp only [retCapture, ht, hd, htz]
      | cons w0 w' =>
        rw [htz] at ht
        simp only [retCapture, ht, hd, List.cons_append]
        rw [if_neg (hz e (hemem e (by simp)))]
        rw [show (e :: (er ++ ';' :: Y)).dropWhile (fun d => !(d = ';')) =
            ';' :: Y from by
          rw [← List.cons_append,
            List.dropWhile_append_of_pos
              (fun d hd => by simpa using hz d (hemem d hd)),
            List.dropWhile_cons_of_neg (by simp)]]
        exact Or.inr ⟨_, rfl⟩

/-- `retClause` ignores a leading whitespace character. -/
theorem retClause_cons_ws {c : Char} (s : List Char) (hc : isWsRe c = true) :
    retClause (c :: s) = retClause s := by
  unfold retClause
  rw [skipWs_cons_ws s hc]

/-- On a statement region followed by `;`, a `return` clause either fails
or consumes exactly up to that first `;` — it can never reach beyond it. -/
theorem retClause_stops_at_semi (x Y : List Char)
    (hx : ∀ d ∈ x, flatChar d = true) :
    retClause (x ++ ';' :: Y) = none ∨
    ∃ cap, retClause (x ++ ';' :: Y) = some (cap, Y) := by
  have hskip : skipWs (x ++ ';' :: Y) = x.dropWhile isWsRe ++ ';' :: Y := by
    rw [skipWs, List.dropWhile_append]
    by_cases he : (x.dropWhile isWsRe).isEmpty
    · rw [if_pos he, List.dropWhile_cons_of_neg (by decide),
        List.isEmpty_iff.mp he, List.nil_append]
    · rw [if_neg he]
  have hx1 : ∀ d ∈ x.dropWhile isWsRe, flatChar d = true := by
    intro d hd
    apply hx
    have hdec : x = x.takeWhile isWsRe ++ x.dropWhile isWsRe :=
      (List.takeWhile_append_dropWhile isWsRe x).symm
    rw [hdec]
    exact List.mem_append_right _ hd
  cases hlit : lit (("return").data) (x.dropWhile isWsRe ++ ';' :: Y) with
  | none => left; simp [retClause, hskip, hlit]
  | some s2 =>
    have hdec := lit_eq_some hlit
    rcases List.append_eq_append_iff.mp hdec with ⟨a', ha1, ha2⟩ | ⟨c', hc1, hc2⟩
    · cases a' with
      | nil =>
        rw [List.nil_append] at ha2
        left
        simp only [retClause, hskip, hlit, Option.bind_eq_bind, Option.some_bind]
        rw [← ha2]
        simp [retCapture, List.takeWhile_cons_of_neg, List.dropWhile_cons_of_neg,
          isWsRe]
      | cons e a'' =>
        have he := (List.cons_eq_cons.mp ha2).1
        have hemem : e ∈ ("return").data := by
          rw [ha1]; exact List.mem_append_right _ (by simp)
        rw [← he] at hemem
        exact absurd hemem (by decide)
    · have hc'flat : ∀ d ∈ c', flatChar d = true := fun d hd =>
        hx1 d (by rw [hc1]; exact List.mem_append_right _ hd)
      have hsemi : ∀ d ∈ c', ¬ d = ';' := by
        intro d hd he
        have := hc'flat d hd
        rw [he] at this
        exact absurd this (by decide)
      rcases retCapture_first_semi c' Y hsemi with h | ⟨cap, h⟩
      · left; simp [retClause, hskip, hlit, hc2, h]
      · right; exact ⟨cap, by simp [retClause, hskip, hlit, hc2, h]⟩

/-- `lazyCond` fails on any text whose every stop fails, even after its
leading whitespace was consumed by the preceding `\s*`. -/
theorem lazyCond_skipWs_none (acc L : List Char)
    (h : ∀ u v, L = u ++ ')' :: v → afterCond v = none) :
    lazyCond acc (skipWs L) = none := by
  apply lazyCond_none_of_stops
  intro u v huv
  apply h (L.takeWhile isWsRe ++ u) v
  rw [List.append_assoc, ← huv]
  exact (List.takeWhile_append_dropWhile isWsRe L).symm

/-- A brace block holding an extra statement `x` before its `return`
cannot satisfy the branch pattern: the clause either fails outright or
stops at the `;` ending `x`, after which a `return` follows where the
pattern requires `\x7d`. -/
theorem extra_stmt_branch_fails (x Z : List Char)
    (hx : ∀ d ∈ x, flatChar d = true)
    (hZ : ∀ r, ¬ skipWs Z = '\x7d' :: r) :
    afterCond (' ' :: '\x7b' :: ' ' :: (x ++ ';' :: Z)) = none := by
  unfold afterCond
  rw [show skipWs (' ' :: '\x7b' :: ' ' :: (x ++ ';' :: Z)) =
      '\x7b' :: (' ' :: (x ++ ';' :: Z)) from by
    rw [skipWs_cons_ws _ (by decide)]
    exact List.dropWhile_cons_of_neg (by decide)]
  rw [show lit ['\x7b'] ('\x7b' :: (' ' :: (x ++ ';' :: Z))) =
    some (' ' :: (x ++ ';' :: Z)) from lit_self ['\x7b'] _]
  simp only [Option.bind_eq_bind, Option.some_bind]
  rw [retClause_cons_ws _ (by decide)]
  rcases retClause_stops_at_semi x Z hx with h | ⟨cap, h⟩
  · rw [h]; rfl
  · rw [h]
    simp only [Option.some_bind]
    cases hsw : skipWs Z with
    | nil => simp [lit]
    | cons d r =>
      have hd : ¬ '\x7d' = d := fun he => hZ r (by rw [hsw, ← he])
      simp [lit, hd]

/-- Junction-safe `noIfB` concatenation: the second part does not start
with `f`. -/
theorem noIfB_append_headne (a b : List Char) (ha : noIfB a = true)
    (hb : noIfB b = true) (hjb : b.head? ≠ some 'f') :
    noIfB (a ++ b) = true :=
  noIfB_append a b ha hb (fun h => hjb h.2)

/-- Junction-safe `noIfB` concatenation: the first part does not end with
`i`. -/
theorem noIfB_append_lastne (a b : List Char) (ha : noIfB a = true)
    (hb : noIfB b = true) (hja : a.getLast? ≠ some 'i') :
    noIfB (a ++ b) = true :=
  noIfB_append a b ha hb (fun h => hja h.1)

/-- `skipWs` is the identity on text starting with non-whitespace. -/
theorem skipWs_cons_neg {c : Char} (s : List Char) (hc : isWsRe c = false) :
    skipWs (c :: s) = c :: s :=
  List.dropWhile_cons_of_neg (by simp [hc])

/-- Characters of a flat statement/expression region are never one of the
structural tokens of the pattern. -/
theorem flat_no (x : List Char) (hx : ∀ d ∈ x, flatChar d = true) :
    (∀ d ∈ x, ¬ d = ')') ∧ (∀ d ∈ x, ¬ d = ';') := by
  constructor <;>
    (intro d hd he; subst he; have := hx _ hd; exact absurd this (by decide))

/-- `IF_RETURN_PATTERN.search` finds nothing in a target text whose true
branch holds an extra statement before its `return`. -/
theorem tBadTrue_no_match (c x t f : List Char)
    (hc : ∀ d ∈ c, flatChar d = true) (hx : ∀ d ∈ x, flatChar d = true)
    (ht : ∀ d ∈ t, flatChar d = true) (hf : ∀ d ∈ f, flatChar d = true)
    (hcI : noIfB c = true) (hxI : noIfB x = true)
    (htI : noIfB t = true) (hfI : noIfB f = true) :
    patSearch (tBadTrue c x t f) = none := by
  have htb : tBadTrue c x t f =
      'i' :: 'f' :: ' ' :: '(' :: (c ++ ')' :: (' ' :: '\x7b' :: ' ' ::
        (x ++ ';' :: ((" return ").data ++ (t ++ ';' ::
          ((" \x7d else \x7b return ").data ++
            (f ++ ';' :: ' ' :: '\x7d' :: []))))))) := by
    unfold tBadTrue
    simp only [show ("if (").data = ['i', 'f', ' ', '('] from rfl,
      show (") \x7b ").data = [')', ' ', '\x7b', ' '] from rfl,
      show ("; return ").data = ';' :: (" return ").data from rfl,
      show ("; \x7d else \x7b return ").data =
        ';' :: (" \x7d else \x7b return ").data from rfl,
      show ("; \x7d").data = [';', ' ', '\x7d'] from rfl,
      List.cons_append, List.append_assoc, List.nil_append]
  have hZhead : ∀ r, ¬ skipWs ((" return ").data ++ (t ++ ';' ::
      ((" \x7d else \x7b return ").data ++ (f ++ ';' :: ' ' :: '\x7d' :: [])))) =
      '\x7d' :: r := by
    intro r hr
    rw [show (" return ").data ++ (t ++ ';' ::
        ((" \x7d else \x7b return ").data ++ (f ++ ';' :: ' ' :: '\x7d' :: []))) =
      ' ' :: 'r' :: (("eturn ").data ++ (t ++ ';' ::
        ((" \x7d else \x7b return ").data ++ (f ++ ';' :: ' ' :: '\x7d' :: []))))
      from rfl] at hr
    rw [skipWs_cons_ws _ (by decide), skipWs_cons_neg _ (by decide)] at hr
    exact absurd (List.cons_eq_cons.mp hr).1 (by decide)
  have hZparen : ∀ d ∈ (" return ").data ++ (t ++ ';' ::
      ((" \x7d else \x7b return ").data ++ (f ++ ';' :: ' ' :: '\x7d' :: []))),
      ¬ d = ')' := by
    intro d hd he
    subst he
    simp only [List.mem_append, List.mem_cons] at hd
    rcases hd with h | h | h | h | h
    · exact absurd h (by decide)
    · exact absurd (ht _ h) (by decide)
    · exact absurd h (by decide)
    · exact absurd h (by decide)
    · rcases h with h | h
      · exact absurd (hf _ h) (by decide)
      · simp at h
  have hafter : afterCond (' ' :: '\x7b' :: ' ' ::
      (x ++ ';' :: ((" return ").data ++ (t ++ ';' ::
        ((" \x7d else \x7b return ").data ++
          (f ++ ';' :: ' ' :: '\x7d' :: [])))))) = none :=
    extra_stmt_branch_fails x _ hx hZhead
  have hR0paren : ∀ d ∈ ' ' :: '\x7b' :: ' ' ::
      (x ++ ';' :: ((" return ").data ++ (t ++ ';' ::
        ((" \x7d else \x7b return ").data ++ (f ++ ';' :: ' ' :: '\x7d' :: []))))),
      ¬ d = ')' := by
    intro d hd he
    subst he
    simp only [List.mem_cons, List.mem_append] at hd
    rcases hd with h | h | h | h | h
    · exact absurd h (by decide)
    · exact absurd h (by decide)
    · exact absurd h (by decide)
    · exact absurd (hx _ h) (by decide)
    · rcases h with h | h
      · exact absurd h (by decide)
      · exact hZparen _ (by simpa using h) rfl
  have hm0 : patMatchAt ('i' :: 'f' :: ' ' :: '(' :: (c ++ ')' ::
      (' ' :: '\x7b' :: ' ' :: (x ++ ';' :: ((" return ").data ++ (t ++ ';' ::
        ((" \x7d else \x7b return ").data ++
          (f ++ ';' :: ' ' :: '\x7d' :: [])))))))) = none := by
    unfold patMatchAt
    rw [show ('i' :: 'f' :: ' ' :: '(' :: (c ++ ')' ::
        (' ' :: '\x7b' :: ' ' :: (x ++ ';' :: ((" return ").data ++ (t ++ ';' ::
          ((" \x7d else \x7b return ").data ++
            (f ++ ';' :: ' ' :: '\x7d' :: []))))))) : List Char) =
      ("if").data ++ (' ' :: '(' :: (c ++ ')' ::
        (' ' :: '\x7b' :: ' ' :: (x ++ ';' :: ((" return ").data ++ (t ++ ';' ::
          ((" \x7d else \x7b return ").data ++
            (f ++ ';' :: ' ' :: '\x7d' :: [])))))))) from rfl]
    rw [lit_self (("if").data)]
    simp only [Option.bind_eq_bind, Option.some_bind]
    rw [show skipWs (' ' :: '(' :: (c ++ ')' ::
        (' ' :: '\x7b' :: ' ' :: (x ++ ';' :: ((" return ").data ++ (t ++ ';' ::
          ((" \x7d else \x7b return ").data ++
            (f ++ ';' :: ' ' :: '\x7d' :: [])))))))) =
      '(' :: (c ++ ')' ::
        (' ' :: '\x7b' :: ' ' :: (x ++ ';' :: ((" return ").data ++ (t ++ ';' ::
          ((" \x7d else \x7b return ").data ++
            (f ++ ';' :: ' ' :: '\x7d' :: []))))))) from by
      rw [skipWs_cons_ws _ (by decide)]
      exact List.dropWhile_cons_of_neg (by decide)]
    rw [show lit ['('] ('(' :: (c ++ ')' ::
        (' ' :: '\x7b' :: ' ' :: (x ++ ';' :: ((" return ").data ++ (t ++ ';' ::
          ((" \x7d else \x7b return ").data ++
            (f ++ ';' :: ' ' :: '\x7d' :: []))))))) ) =
      some (c ++ ')' ::
        (' ' :: '\x7b' :: ' ' :: (x ++ ';' :: ((" return ").data ++ (t ++ ';' ::
          ((" \x7d else \x7b return ").data ++
            (f ++ ';' :: ' ' :: '\x7d' :: []))))))) from lit_self ['('] _]
    simp only [Option.some_bind]
    apply lazyCond_skipWs_none
    intro u v huv
    obtain ⟨hu, hv⟩ := split_paren_unique (flat_no c hc).1 hR0paren huv
    rw [hv]
    exact hafter
  rw [htb, patSearch_cons, hm0]
  rw [patSearch_cons, patMatchAt_none_not_if _ (by
    intro r hr
    exact absurd (List.cons_eq_cons.mp hr).1 (by decide))]
  apply patSearch_none_of_noIf
  have h1 : noIfB ((" return ").data ++ (t ++ ';' ::
      ((" \x7d else \x7b return ").data ++ (f ++ ';' :: ' ' :: '\x7d' :: [])))) =
      true := by
    apply noIfB_append_lastne _ _ (by decide) _ (by decide)
    apply noIfB_append_headne _ _ htI _ (by simp)
    rw [show (';' :: ((" \x7d else \x7b return ").data ++
        (f ++ ';' :: ' ' :: '\x7d' :: []))) =
      [';'] ++ ((" \x7d else \x7b return ").data ++
        (f ++ ';' :: ' ' :: '\x7d' :: [])) from rfl]
    apply noIfB_append_lastne _ _ (by decide) _ (by decide)
    apply noIfB_append_lastne _ _ (by decide) _ (by decide)
    apply noIfB_append_headne _ _ hfI (by decide) (by simp)
  have h2 : noIfB (x ++ ';' :: ((" return ").data ++ (t ++ ';' ::
      ((" \x7d else \x7b return ").data ++ (f ++ ';' :: ' ' :: '\x7d' :: []))))) =
      true := by
    apply noIfB_append_headne _ _ hxI _ (by simp)
    rw [show (';' :: ((" return ").data ++ (t ++ ';' ::
        ((" \x7d else \x7b return ").data ++ (f ++ ';' :: ' ' :: '\x7d' :: []))))) =
      [';'] ++ ((" return ").data ++ (t ++ ';' ::
        ((" \x7d else \x7b return ").data ++ (f ++ ';' :: ' ' :: '\x7d' :: []))))
      from rfl]
    exact noIfB_append_lastne _ _ (by decide) h1 (by decide)
  have h3 : noIfB (c ++ ')' :: (' ' :: '\x7b' :: ' ' ::
      (x ++ ';' :: ((" return ").data ++ (t ++ ';' ::
        ((" \x7d else \x7b return ").data ++
          (f ++ ';' :: ' ' :: '\x7d' :: []))))))) = true := by
    apply noIfB_append_headne _ _ hcI _ (by simp)
    rw [show (')' :: (' ' :: '\x7b' :: ' ' ::
        (x ++ ';' :: ((" return ").data ++ (t ++ ';' ::
          ((" \x7d else \x7b return ").data ++
            (f ++ ';' :: ' ' :: '\x7d' :: []))))))) =
      [')', ' ', '\x7b', ' '] ++
        (x ++ ';' :: ((" return ").data ++ (t ++ ';' ::
          ((" \x7d else \x7b return ").data ++
            (f ++ ';' :: ' ' :: '\x7d' :: []))))) from rfl]
    exact noIfB_append_lastne _ _ (by decide) h2 (by decide)
  rw [show (' ' :: '(' :: (c ++ ')' :: (' ' :: '\x7b' :: ' ' ::
      (x ++ ';' :: ((" return ").data ++ (t ++ ';' ::
        ((" \x7d else \x7b return ").data ++
          (f ++ ';' :: ' ' :: '\x7d' :: []))))))) : List Char) =
    [' ', '('] ++ (c ++ ')' :: (' ' :: '\x7b' :: ' ' ::
      (x ++ ';' :: ((" return ").data ++ (t ++ ';' ::
        ((" \x7d else \x7b return ").data ++
          (f ++ ';' :: ' ' :: '\x7d' :: []))))))) from rfl]
  exact noIfB_append_lastne _ _ (by decide) h3 (by decide)

/-- No `)` in a concatenation, from both sides. -/
theorem no_paren_append {a b : List Char} (ha : ∀ d ∈ a, ¬ d = ')')
    (hb : ∀ d ∈ b, ¬ d = ')') : ∀ d ∈ a ++ b, ¬ d = ')' := by
  intro d hd
  rcases List.mem_append.mp hd with h | h
  · exact ha d h
  · exact hb d h

/-- No `)` after prepending a non-`)` character. -/
theorem no_paren_cons {c : Char} {b : List Char} (hc : ¬ c = ')')
    (hb : ∀ d ∈ b, ¬ d = ')') : ∀ d ∈ c :: b, ¬ d = ')' := by
  intro d hd
  rcases List.mem_cons.mp hd with h | h
  · rw [h]; exact hc
  · exact hb d h

/-- `IF_RETURN_PATTERN.search` finds nothing in a target text whose else
branch holds an extra statement before its `return`. -/
theorem tBadFalse_no_match (c x t f : List Char)
    (hc : ∀ d ∈ c, flatChar d = true) (hx : ∀ d ∈ x, flatChar d = true)
    (ht : ∀ d ∈ t, flatChar d = true) (hf : ∀ d ∈ f, flatChar d = true)
    (hcI : noIfB c = true) (hxI : noIfB x = true)
    (htI : noIfB t = true) (hfI : noIfB f = true)
    (htne : t ≠ []) (hthead : isWsRe (t.headD ' ') = false) :
    patSearch (tBadFalse c x t f) = none := by
  have htsemi : ∀ d ∈ t, ¬ d = ';' := (flat_no t ht).2
  have htb : tBadFalse c x t f =
      'i' :: 'f' :: ' ' :: '(' :: (c ++ ')' :: (' ' :: '\x7b' :: ' ' :: 'r' ::
        'e' :: 't' :: 'u' :: 'r' :: 'n' :: ' ' :: (t ++ ';' ::
          (' ' :: '\x7d' :: ' ' :: 'e' :: 'l' :: 's' :: 'e' :: ' ' :: '\x7b' ::
            ' ' :: (x ++ ';' :: ((" return ").data ++
              (f ++ ';' :: ' ' :: '\x7d' :: []))))))) := by
    unfold tBadFalse
    simp only [show ("if (").data = ['i', 'f', ' ', '('] from rfl,
      show (") \x7b return ").data =
        [')', ' ', '\x7b', ' ', 'r', 'e', 't', 'u', 'r', 'n', ' '] from rfl,
      show ("; \x7d else \x7b ").data =
        [';', ' ', '\x7d', ' ', 'e', 'l', 's', 'e', ' ', '\x7b', ' '] from rfl,
      show ("; return ").data = ';' :: (" return ").data from rfl,
      show ("; \x7d").data = [';', ' ', '\x7d'] from rfl,
      List.cons_append, List.append_assoc, List.nil_append]
  have hY2head : ∀ r, ¬ skipWs ((" return ").data ++
      (f ++ ';' :: ' ' :: '\x7d' :: [])) = '\x7d' :: r := by
    intro r hr
    rw [show (" return ").data ++ (f ++ ';' :: ' ' :: '\x7d' :: []) =
      ' ' :: 'r' :: (("eturn ").data ++ (f ++ ';' :: ' ' :: '\x7d' :: []))
      from rfl] at hr
    rw [skipWs_cons_ws _ (by decide), skipWs_cons_neg _ (by decide)] at hr
    exact absurd (List.cons_eq_cons.mp hr).1 (by decide)
  have hafter : afterCond (' ' :: '\x7b' :: ' ' :: 'r' ::
      'e' :: 't' :: 'u' :: 'r' :: 'n' :: ' ' :: (t ++ ';' ::
        (' ' :: '\x7d' :: ' ' :: 'e' :: 'l' :: 's' :: 'e' :: ' ' :: '\x7b' ::
          ' ' :: (x ++ ';' :: ((" return ").data ++
            (f ++ ';' :: ' ' :: '\x7d' :: [])))))) = none := by
    unfold afterCond
    rw [show skipWs (' ' :: '\x7b' :: ' ' :: 'r' ::
        'e' :: 't' :: 'u' :: 'r' :: 'n' :: ' ' :: (t ++ ';' ::
          (' ' :: '\x7d' :: ' ' :: 'e' :: 'l' :: 's' :: 'e' :: ' ' :: '\x7b' ::
            ' ' :: (x ++ ';' :: ((" return ").data ++
              (f ++ ';' :: ' ' :: '\x7d' :: [])))))) =
      '\x7b' :: (' ' :: 'r' ::
        'e' :: 't' :: 'u' :: 'r' :: 'n' :: ' ' :: (t ++ ';' ::
          (' ' :: '\x7d' :: ' ' :: 'e' :: 'l' :: 's' :: 'e' :: ' ' :: '\x7b' ::
            ' ' :: (x ++ ';' :: ((" return ").data ++
              (f ++ ';' :: ' ' :: '\x7d' :: [])))))) from by
      rw [skipWs_cons_ws _ (by decide), skipWs_cons_neg _ (by decide)]]
    rw [show lit ['\x7b'] ('\x7b' :: (' ' :: 'r' ::
        'e' :: 't' :: 'u' :: 'r' :: 'n' :: ' ' :: (t ++ ';' ::
          (' ' :: '\x7d' :: ' ' :: 'e' :: 'l' :: 's' :: 'e' :: ' ' :: '\x7b' ::
            ' ' :: (x ++ ';' :: ((" return ").data ++
              (f ++ ';' :: ' ' :: '\x7d' :: []))))))) =
      some (' ' :: 'r' ::
        'e' :: 't' :: 'u' :: 'r' :: 'n' :: ' ' :: (t ++ ';' ::
          (' ' :: '\x7d' :: ' ' :: 'e' :: 'l' :: 's' :: 'e' :: ' ' :: '\x7b' ::
            ' ' :: (x ++ ';' :: ((" return ").data ++
              (f ++ ';' :: ' ' :: '\x7d' :: [])))))) from lit_self ['\x7b'] _]
    simp only [Option.bind_eq_bind, Option.some_bind]
    rw [show (' ' :: 'r' ::
        'e' :: 't' :: 'u' :: 'r' :: 'n' :: ' ' :: (t ++ ';' ::
          (' ' :: '\x7d' :: ' ' :: 'e' :: 'l' :: 's' :: 'e' :: ' ' :: '\x7b' ::
            ' ' :: (x ++ ';' :: ((" return ").data ++
              (f ++ ';' :: ' ' :: '\x7d' :: []))))) : List Char) =
      [' '] ++ ("return").data ++ ([' '] ++ (t ++ ';' ::
          (' ' :: '\x7d' :: ' ' :: 'e' :: 'l' :: 's' :: 'e' :: ' ' :: '\x7b' ::
            ' ' :: (x ++ ';' :: ((" return ").data ++
              (f ++ ';' :: ' ' :: '\x7d' :: [])))))) from rfl]
    rw [retClause_exact [' '] [' '] t _ (by simp [isWsRe]) (by simp)
      (by simp [isWsRe]) htne hthead htsemi]
    simp only [Option.some_bind]
    rw [show skipWs (' ' :: '\x7d' :: ' ' :: 'e' :: 'l' :: 's' :: 'e' :: ' ' ::
        '\x7b' :: ' ' :: (x ++ ';' :: ((" return ").data ++
          (f ++ ';' :: ' ' :: '\x7d' :: [])))) =
      '\x7d' :: (' ' :: 'e' :: 'l' :: 's' :: 'e' :: ' ' ::
        '\x7b' :: ' ' :: (x ++ ';' :: ((" return ").data ++
          (f ++ ';' :: ' ' :: '\x7d' :: [])))) from by
      rw [skipWs_cons_ws _ (by decide), skipWs_cons_neg _ (by decide)]]
    rw [show lit ['\x7d'] ('\x7d' :: (' ' :: 'e' :: 'l' :: 's' :: 'e' :: ' ' ::
        '\x7b' :: ' ' :: (x ++ ';' :: ((" return ").data ++
          (f ++ ';' :: ' ' :: '\x7d' :: []))))) =
      some (' ' :: 'e' :: 'l' :: 's' :: 'e' :: ' ' ::
        '\x7b' :: ' ' :: (x ++ ';' :: ((" return ").data ++
          (f ++ ';' :: ' ' :: '\x7d' :: [])))) from lit_self ['\x7d'] _]
    simp only [Option.some_bind]
    rw [show skipWs (' ' :: 'e' :: 'l' :: 's' :: 'e' :: ' ' ::
        '\x7b' :: ' ' :: (x ++ ';' :: ((" return ").data ++
          (f ++ ';' :: ' ' :: '\x7d' :: [])))) =
      'e' :: 'l' :: 's' :: 'e' :: (' ' ::
        '\x7b' :: ' ' :: (x ++ ';' :: ((" return ").data ++
          (f ++ ';' :: ' ' :: '\x7d' :: [])))) from by
      rw [skipWs_cons_ws _ (by decide), skipWs_cons_neg _ (by decide)]]
    rw [show ('e' :: 'l' :: 's' :: 'e' :: (' ' ::
        '\x7b' :: ' ' :: (x ++ ';' :: ((" return ").data ++
          (f ++ ';' :: ' ' :: '\x7d' :: [])))) : List Char) =
      ("else").data ++ (' ' ::
        '\x7b' :: ' ' :: (x ++ ';' :: ((" return ").data ++
          (f ++ ';' :: ' ' :: '\x7d' :: [])))) from rfl]
    rw [lit_self (("else").data)]
    simp only [Option.some_bind]
    rw [show skipWs (' ' :: '\x7b' :: ' ' :: (x ++ ';' :: ((" return ").data ++
        (f ++ ';' :: ' ' :: '\x7d' :: [])))) =
      '\x7b' :: (' ' :: (x ++ ';' :: ((" return ").data ++
        (f ++ ';' :: ' ' :: '\x7d' :: [])))) from by
      rw [skipWs_cons_ws _ (by decide), skipWs_cons_neg _ (by decide)]]
    rw [show lit ['\x7b'] ('\x7b' :: (' ' :: (x ++ ';' :: ((" return ").data ++
        (f ++ ';' :: ' ' :: '\x7d' :: []))))) =
      some (' ' :: (x ++ ';' :: ((" return ").data ++
        (f ++ ';' :: ' ' :: '\x7d' :: [])))) from lit_self ['\x7b'] _]
    simp only [Option.some_bind]
    rw [retClause_cons_ws _ (by decide)]
    rcases retClause_stops_at_semi x ((" return ").data ++
      (f ++ ';' :: ' ' :: '\x7d' :: [])) hx with h | ⟨cap, h⟩
    · rw [h]; rfl
    · rw [h]
      simp only [Option.some_bind]
      cases hsw : skipWs ((" return ").data ++
        (f ++ ';' :: ' ' :: '\x7d' :: [])) with
      | nil => simp [lit]
      | cons d r =>
        have hd : ¬ '\x7d' = d := fun he => hY2head r (by rw [hsw, ← he])
        simp [lit, hd]
  have hR0paren : ∀ d ∈ ' ' :: '\x7b' :: ' ' :: 'r' ::
      'e' :: 't' :: 'u' :: 'r' :: 'n' :: ' ' :: (t ++ ';' ::
        (' ' :: '\x7d' :: ' ' :: 'e' :: 'l' :: 's' :: 'e' :: ' ' :: '\x7b' ::
          ' ' :: (x ++ ';' :: ((" return ").data ++
            (f ++ ';' :: ' ' :: '\x7d' :: []))))), ¬ d = ')' := by
    show ∀ d ∈ [' ', '\x7b', ' ', 'r', 'e', 't', 'u', 'r', 'n', ' '] ++
      (t ++ ';' :: ([' ', '\x7d', ' ', 'e', 'l', 's', 'e', ' ', '\x7b', ' '] ++
        (x ++ ';' :: ((" return ").data ++
          (f ++ ';' :: ' ' :: '\x7d' :: []))))), ¬ d = ')'
    apply no_paren_append (by decide)
    apply no_paren_append (flat_no t ht).1
    apply no_paren_cons (by decide)
    apply no_paren_append (by decide)
    apply no_paren_append (flat_no x hx).1
    apply no_paren_cons (by decide)
    apply no_paren_append (by decide)
    apply no_paren_append (flat_no f hf).1
    apply no_paren_cons (by decide)
    apply no_paren_cons (by decide)
    apply no_paren_cons (by decide)
    intro d hd
    simp at hd
  have hm0 : patMatchAt ('i' :: 'f' :: ' ' :: '(' :: (c ++ ')' ::
      (' ' :: '\x7b' :: ' ' :: 'r' ::
        'e' :: 't' :: 'u' :: 'r' :: 'n' :: ' ' :: (t ++ ';' ::
          (' ' :: '\x7d' :: ' ' :: 'e' :: 'l' :: 's' :: 'e' :: ' ' :: '\x7b' ::
            ' ' :: (x ++ ';' :: ((" return ").data ++
              (f ++ ';' :: ' ' :: '\x7d' :: [])))))))) = none := by
    unfold patMatchAt
    rw [show ('i' :: 'f' :: ' ' :: '(' :: (c ++ ')' ::
        (' ' :: '\x7b' :: ' ' :: 'r' ::
          'e' :: 't' :: 'u' :: 'r' :: 'n' :: ' ' :: (t ++ ';' ::
            (' ' :: '\x7d' :: ' ' :: 'e' :: 'l' :: 's' :: 'e' :: ' ' :: '\x7b' ::
              ' ' :: (x ++ ';' :: ((" return ").data ++
                (f ++ ';' :: ' ' :: '\x7d' :: []))))))) : List Char) =
      ("if").data ++ (' ' :: '(' :: (c ++ ')' ::
        (' ' :: '\x7b' :: ' ' :: 'r' ::
          'e' :: 't' :: 'u' :: 'r' :: 'n' :: ' ' :: (t ++ ';' ::
            (' ' :: '\x7d' :: ' ' :: 'e' :: 'l' :: 's' :: 'e' :: ' ' :: '\x7b' ::
              ' ' :: (x ++ ';' :: ((" return ").data ++
                (f ++ ';' :: ' ' :: '\x7d' :: [])))))))) from rfl]
    rw [lit_self (("if").data)]
    simp only [Option.bind_eq_bind, Option.some_bind]
    rw [show skipWs (' ' :: '(' :: (c ++ ')' ::
        (' ' :: '\x7b' :: ' ' :: 'r' ::
          'e' :: 't' :: 'u' :: 'r' :: 'n' :: ' ' :: (t ++ ';' ::
            (' ' :: '\x7d' :: ' ' :: 'e' :: 'l' :: 's' :: 'e' :: ' ' :: '\x7b' ::
              ' ' :: (x ++ ';' :: ((" return ").data ++
                (f ++ ';' :: ' ' :: '\x7d' :: [])))))))) =
      '(' :: (c ++ ')' ::
        (' ' :: '\x7b' :: ' ' :: 'r' ::
          'e' :: 't' :: 'u' :: 'r' :: 'n' :: ' ' :: (t ++ ';' ::
            (' ' :: '\x7d' :: ' ' :: 'e' :: 'l' :: 's' :: 'e' :: ' ' :: '\x7b' ::
              ' ' :: (x ++ ';' :: ((" return ").data ++
                (f ++ ';' :: ' ' :: '\x7d' :: []))))))) from by
      rw [skipWs_cons_ws _ (by decide), skipWs_cons_neg _ (by decide)]]
    rw [show lit ['('] ('(' :: (c ++ ')' ::
        (' ' :: '\x7b' :: ' ' :: 'r' ::
          'e' :: 't' :: 'u' :: 'r' :: 'n' :: ' ' :: (t ++ ';' ::
            (' ' :: '\x7d' :: ' ' :: 'e' :: 'l' :: 's' :: 'e' :: ' ' :: '\x7b' ::
              ' ' :: (x ++ ';' :: ((" return ").data ++
                (f ++ ';' :: ' ' :: '\x7d' :: [])))))))) =
      some (c ++ ')' ::
        (' ' :: '\x7b' :: ' ' :: 'r' ::
          'e' :: 't' :: 'u' :: 'r' :: 'n' :: ' ' :: (t ++ ';' ::
            (' ' :: '\x7d' :: ' ' :: 'e' :: 'l' :: 's' :: 'e' :: ' ' :: '\x7b' ::
              ' ' :: (x ++ ';' :: ((" return ").data ++
                (f ++ ';' :: ' ' :: '\x7d' :: []))))))) from lit_self ['('] _]
    simp only [Option.some_bind]
    apply lazyCond_skipWs_none
    intro u v huv
    obtain ⟨hu, hv⟩ := split_paren_unique (flat_no c hc).1 hR0paren huv
    rw [hv]
    exact hafter
  rw [htb, patSearch_cons, hm0]
  rw [patSearch_cons, patMatchAt_none_not_if _ (by
    intro r hr
    exact absurd (List.cons_eq_cons.mp hr).1 (by decide))]
  apply patSearch_none_of_noIf
  have h1 : noIfB ((" return ").data ++ (f ++ ';' :: ' ' :: '\x7d' :: [])) =
      true := by
    apply noIfB_append_lastne _ _ (by decide) _ (by decide)
    exact noIfB_append_headne _ _ hfI (by decide) (by simp)
  have h2 : noIfB (x ++ ';' :: ((" return ").data ++
      (f ++ ';' :: ' ' :: '\x7d' :: []))) = true := by
    apply noIfB_append_headne _ _ hxI _ (by simp)
    rw [show (';' :: ((" return ").data ++ (f ++ ';' :: ' ' :: '\x7d' :: []))) =
      [';'] ++ ((" return ").data ++ (f ++ ';' :: ' ' :: '\x7d' :: [])) from rfl]
    exact noIfB_append_lastne _ _ (by decide) h1 (by decide)
  have h3 : noIfB (t ++ ';' ::
      (' ' :: '\x7d' :: ' ' :: 'e' :: 'l' :: 's' :: 'e' :: ' ' :: '\x7b' ::
        ' ' :: (x ++ ';' :: ((" return ").data ++
          (f ++ ';' :: ' ' :: '\x7d' :: []))))) = true := by
    apply noIfB_append_headne _ _ htI _ (by simp)
    rw [show (';' :: (' ' :: '\x7d' :: ' ' :: 'e' :: 'l' :: 's' :: 'e' :: ' ' ::
        '\x7b' :: ' ' :: (x ++ ';' :: ((" return ").data ++
          (f ++ ';' :: ' ' :: '\x7d' :: []))))) =
      [';', ' ', '\x7d', ' ', 'e', 'l', 's', 'e', ' ', '\x7b', ' '] ++
        (x ++ ';' :: ((" return ").data ++
          (f ++ ';' :: ' ' :: '\x7d' :: []))) from rfl]
    exact noIfB_append_lastne _ _ (by decide) h2 (by decide)
  have h4 : noIfB (c ++ ')' ::
      (' ' :: '\x7b' :: ' ' :: 'r' ::
        'e' :: 't' :: 'u' :: 'r' :: 'n' :: ' ' :: (t ++ ';' ::
          (' ' :: '\x7d' :: ' ' :: 'e' :: 'l' :: 's' :: 'e' :: ' ' :: '\x7b' ::
            ' ' :: (x ++ ';' :: ((" return ").data ++
              (f ++ ';' :: ' ' :: '\x7d' :: []))))))) = true := by
    apply noIfB_append_headne _ _ hcI _ (by simp)
    rw [show (')' :: (' ' :: '\x7b' :: ' ' :: 'r' ::
        'e' :: 't' :: 'u' :: 'r' :: 'n' :: ' ' :: (t ++ ';' ::
          (' ' :: '\x7d' :: ' ' :: 'e' :: 'l' :: 's' :: 'e' :: ' ' :: '\x7b' ::
            ' ' :: (x ++ ';' :: ((" return ").data ++
              (f ++ ';' :: ' ' :: '\x7d' :: []))))))) =
      [')', ' ', '\x7b', ' ', 'r', 'e', 't', 'u', 'r', 'n', ' '] ++
        (t ++ ';' ::
          (' ' :: '\x7d' :: ' ' :: 'e' :: 'l' :: 's' :: 'e' :: ' ' :: '\x7b' ::
            ' ' :: (x ++ ';' :: ((" return ").data ++
              (f ++ ';' :: ' ' :: '\x7d' :: []))))) from rfl]
    exact noIfB_append_lastne _ _ (by decide) h3 (by decide)
  rw [show (' ' :: '(' :: (c ++ ')' ::
      (' ' :: '\x7b' :: ' ' :: 'r' ::
        'e' :: 't' :: 'u' :: 'r' :: 'n' :: ' ' :: (t ++ ';' ::
          (' ' :: '\x7d' :: ' ' :: 'e' :: 'l' :: 's' :: 'e' :: ' ' :: '\x7b' ::
            ' ' :: (x ++ ';' :: ((" return ").data ++
              (f ++ ';' :: ' ' :: '\x7d' :: []))))))) : List Char) =
    [' ', '('] ++ (c ++ ')' ::
      (' ' :: '\x7b' :: ' ' :: 'r' ::
        'e' :: 't' :: 'u' :: 'r' :: 'n' :: ' ' :: (t ++ ';' ::
          (' ' :: '\x7d' :: ' ' :: 'e' :: 'l' :: 's' :: 'e' :: ' ' :: '\x7b' ::
            ' ' :: (x ++ ';' :: ((" return ").data ++
              (f ++ ';' :: ' ' :: '\x7d' :: []))))))) from rfl]
  exact noIfB_append_lastne _ _ (by decide) h4 (by decide)

/-- Leftmost-match property of `search`: if the pattern matches at some
position and fails at every earlier position, the search result is that
match. -/
theorem patSearch_first (a b : List Char) (r : List Char × List Char × List Char)
    (hb : patMatchAt b = some r)
    (hprev : ∀ u v, a ++ b = u ++ v → b.length < v.length → patMatchAt v = none) :
    patSearch (a ++ b) = some r := by
  induction a with
  | nil => exact patSearch_of_matchAt hb
  | cons c a' ih =>
    have hm : patMatchAt (c :: (a' ++ b)) = none := by
      apply hprev [] (c :: (a' ++ b)) (by rw [List.nil_append, List.cons_append])
      simp only [List.length_cons, List.length_append]
      omega
    rw [List.cons_append, patSearch_cons, hm]
    exact ih (fun u v huv hlen =>
      hprev (c :: u) v (by rw [List.cons_append, huv, List.cons_append]) hlen)

/-! ## C9: malformed-target rejection and first-occurrence matching -/

/-- C9: reverse extraction on a target text in which either branch of the
if/else holds an additional (flat, `if`-free) statement before its
`return` fails with the `PatternNotMatched`-style error
(`'Could not parse C text'`) instead of capturing a wrong expression; and
when the pattern does occur, matching uses the first (leftmost) viable
occurrence in the text. -/
theorem malformed_target_rejected (c x t f : List Char) (n : String)
    (hc : ∀ d ∈ c, flatChar d = true) (hx : ∀ d ∈ x, flatChar d = true)
    (ht : ∀ d ∈ t, flatChar d = true) (hf : ∀ d ∈ f, flatChar d = true)
    (hcI : noIfB c = true) (hxI : noIfB x = true)
    (htI : noIfB t = true) (hfI : noIfB f = true)
    (htne : t ≠ []) (hthead : isWsRe (t.headD ' ') = false) :
    c_to_python ⟨tBadTrue c x t f⟩ n = .error "Could not parse C text" ∧
    c_to_python ⟨tBadFalse c x t f⟩ n = .error "Could not parse C text" ∧
    (∀ (a b : List Char) (r : List Char × List Char × List Char),
      patMatchAt b = some r →
      (∀ u v, a ++ b = u ++ v → b.length < v.length → patMatchAt v = none) →
      patSearch (a ++ b) = some r) := by
  refine ⟨?_, ?_, fun a b r hb hprev => patSearch_first a b r hb hprev⟩
  · simp only [c_to_python]
    rw [tBadTrue_no_match c x t f hc hx ht hf hcI hxI htI hfI]
  · simp only [c_to_python]
    rw [tBadFalse_no_match c x t f hc hx ht hf hcI hxI htI hfI htne hthead]

/-- Witness for C9 at concrete texts: `if (a > b) \x7b z = 1; return 1;
\x7d else \x7b return 2; \x7d` (and the else-branch variant) are rejected,
and on a text with a pattern occurrence after one junk character the
search returns that occurrence. -/
theorem malformed_target_rejected_witness :
    c_to_python ⟨tBadTrue ("a > b").data ("z = 1").data ("1").data ("2").data⟩
      "add_mul" = .error "Could not parse C text" ∧
    c_to_python ⟨tBadFalse ("a > b").data ("z = 1").data ("1").data ("2").data⟩
      "add_mul" = .error "Could not parse C text" ∧
    patSearch ('z' ::
        ("if (q) \x7b return 1; \x7d else \x7b return 2; \x7d").data) =
      some (("q").data, ("1").data, ("2").data) := by
  obtain ⟨h1, h2, h3⟩ := malformed_target_rejected ("a > b").data ("z = 1").data
    ("1").data ("2").data "add_mul" (by decide) (by decide) (by decide)
    (by decide) (by decide) (by decide) (by decide) (by decide) (by decide)
    (by decide)
  refine ⟨h1, h2, ?_⟩
  have hm := h3 ['z']
    (("if (q) \x7b return 1; \x7d else \x7b return 2; \x7d").data)
    (("q").data, ("1").data, ("2").data) (by rfl)
    (fun u v huv hlen => by
      have hl : u.length + v.length =
          1 + (("if (q) \x7b return 1; \x7d else \x7b return 2; \x7d").data).length := by
        rw [← List.length_append, ← huv]
        simp
      have hu : u = [] := List.eq_nil_of_length_eq_zero (by omega)
      subst hu
      rw [List.nil_append] at huv
      rw [← huv]
      rfl)
  simpa using hm

/-! ## Lemmas about `textwrap.dedent` -/

/-- Splitting never yields an empty line list. -/
theorem splitNl_ne_nil (s : List Char) : splitNl s ≠ [] := by
  cases s with
  | nil => simp [splitNl]
  | cons c r =>
    simp only [splitNl]
    by_cases hc : c = '\n'
    · simp [hc]
    · simp only [if_neg hc]
      cases splitNl r <;> simp

/-- Splitting starts a new line at a leading newline. -/
theorem splitNl_nl (r : List Char) : splitNl ('\n' :: r) = [] :: splitNl r := by
  simp [splitNl]

/-- Splitting peels one newline-free line. -/
theorem splitNl_chunk (a r : List Char) (ha : '\n' ∉ a) :
    splitNl (a ++ '\n' :: r) = a :: splitNl r := by
  induction a with
  | nil => simpa using splitNl_nl r
  | cons c a' ih =>
    have hc : ¬ c = '\n' := fun he => ha (by simp [he])
    rw [List.cons_append]
    simp only [splitNl, if_neg hc]
    rw [ih (fun hm => ha (by simp [hm]))]

/-- A newline-free text is a single line. -/
theorem splitNl_nonl (a : List Char) (ha : '\n' ∉ a) : splitNl a = [a] := by
  induction a with
  | nil => rfl
  | cons c a' ih =>
    have hc : ¬ c = '\n' := fun he => ha (by simp [he])
    simp only [splitNl, if_neg hc]
    rw [ih (fun hm => ha (by simp [hm]))]

/-- `nlFree` gives non-membership of the newline character. -/
theorem nonl_of_nlFree {l : List Char} (h : nlFree l = true) : '\n' ∉ l := by
  intro hm
  have := List.all_eq_true.mp h _ hm
  simp at this

/-- Newline-freedom of a concatenation. -/
theorem nonl_append {a b : List Char} (ha : '\n' ∉ a) (hb : '\n' ∉ b) :
    '\n' ∉ a ++ b := by
  intro hm
  rcases List.mem_append.mp hm with h | h
  · exact ha h
  · exact hb h

/-- The whitespace-only blanking step keeps a line holding some
non-whitespace character. -/
theorem blank_keep (l : List Char) (c : Char) (hc : c ∈ l)
    (h : isWsTab c = false) :
    (if l ≠ [] && l.all isWsTab then [] else l) = l := by
  apply if_neg
  intro hcond
  have hall := ((Bool.and_eq_true _ _).mp hcond).2
  have := List.all_eq_true.mp hall c hc
  rw [h] at this
  cases this

/-- The round-trip renderer template, dedented symbolically: for
newline-free pieces, `textwrap.dedent` removes the common 4-space margin
of the f-string. -/
theorem pyRoundtrip_flat (n c t f : List Char)
    (hn : nlFree n = true) (hc : nlFree c = true)
    (ht : nlFree t = true) (hf : nlFree f = true) :
    pyRoundtrip n c t f =
      ("\ndef ").data ++ (n ++ (("(a, b):\n    if ").data ++ (c ++
        ((":\n        return ").data ++ (t ++
          (("\n    else:\n        return ").data ++ (f ++ ("\n").data))))))) := by
  have hn' : '\n' ∉ n := nonl_of_nlFree hn
  have hc' : '\n' ∉ c := nonl_of_nlFree hc
  have ht' : '\n' ∉ t := nonl_of_nlFree ht
  have hf' : '\n' ∉ f := nonl_of_nlFree hf
  have hl1 : '\n' ∉ ("    def ").data ++ (n ++ ("(a, b):").data) :=
    nonl_append (by decide) (nonl_append hn' (by decide))
  have hl2 : '\n' ∉ ("        if ").data ++ (c ++ (":").data) :=
    nonl_append (by decide) (nonl_append hc' (by decide))
  have hl3 : '\n' ∉ ("            return ").data ++ t :=
    nonl_append (by decide) ht'
  have hl5 : '\n' ∉ ("            return ").data ++ f :=
    nonl_append (by decide) hf'
  have hsplit : splitNl (pyRtFString n c t f) =
      [[], ("    def ").data ++ (n ++ ("(a, b):").data),
       ("        if ").data ++ (c ++ (":").data),
       ("            return ").data ++ t,
       ("        else:").data,
       ("            return ").data ++ f,
       ("    ").data] := by
    rw [show pyRtFString n c t f =
        '\n' :: ((("    def ").data ++ (n ++ ("(a, b):").data)) ++ '\n' :: ((("        if ").data ++ (c ++ (":").data)) ++ '\n' :: ((("            return ").data ++ t) ++ '\n' :: (("        else:").data ++ '\n' :: ((("            return ").data ++ f) ++ '\n' :: ("    ").data))))) from by
      unfold pyRtFString
      simp only [show ("\n    def ").data = '\n' :: ("    def ").data from rfl,
        show ("(a, b):\n        if ").data =
          ("(a, b):").data ++ '\n' :: ("        if ").data from rfl,
        show (":\n            return ").data =
          (":").data ++ '\n' :: ("            return ").data from rfl,
        show ("\n        else:\n            return ").data =
          '\n' :: (("        else:").data ++ '\n' ::
            ("            return ").data) from rfl,
        show ("\n    ").data = '\n' :: ("    ").data from rfl,
        List.cons_append, List.append_assoc, List.nil_append]]
    rw [splitNl_nl, splitNl_chunk _ _ hl1, splitNl_chunk _ _ hl2,
      splitNl_chunk _ _ hl3, splitNl_chunk _ _ (by decide),
      splitNl_chunk _ _ hl5, splitNl_nonl _ (by decide)]
  have hb1 := blank_keep (("    def ").data ++ (n ++ ("(a, b):").data)) 'd'
    (List.mem_append_left _ (by decide)) (by decide)
  have hb2 := blank_keep (("        if ").data ++ (c ++ (":").data)) 'i'
    (List.mem_append_left _ (by decide)) (by decide)
  have hb3 := blank_keep (("            return ").data ++ t) 'r'
    (List.mem_append_left _ (by decide)) (by decide)
  have hb4 := blank_keep (("        else:").data) 'e' (by decide) (by decide)
  have hb5 := blank_keep (("            return ").data ++ f) 'r'
    (List.mem_append_left _ (by decide)) (by decide)
  have hb0 : (if ([] : List Char) ≠ [] && ([] : List Char).all isWsTab
      then ([] : List Char) else []) = [] := rfl
  have hb6 : (if ("    ").data ≠ [] && (("    ").data).all isWsTab
      then ([] : List Char) else ("    ").data) = [] := rfl
  unfold pyRoundtrip dedentL
  rw [hsplit]
  simp only [List.map_cons, List.map_nil, hb1, hb2, hb3, hb4, hb5, hb0, hb6]
  simp only [List.filter_cons, List.filter_nil]
  rw [show (!([] : List Char).isEmpty) = false from rfl]
  rw [show (!((("    def ").data ++ (n ++ ("(a, b):").data)).isEmpty)) = true
    from rfl]
  rw [show (!((("        if ").data ++ (c ++ (":").data)).isEmpty)) = true
    from rfl]
  rw [show (!((("            return ").data ++ t).isEmpty)) = true from rfl]
  rw [show (!(("        else:").data).isEmpty) = true from rfl]
  rw [show (!((("            return ").data ++ f).isEmpty)) = true from rfl]
  simp only [if_true, if_false, Bool.false_eq_true, ite_false, ite_true]
  simp only [List.map_cons, List.map_nil]
  rw [show List.takeWhile isWsTab
      (("    def ").data ++ (n ++ ("(a, b):").data)) = ("    ").data from rfl]
  rw [show List.takeWhile isWsTab
      (("        if ").data ++ (c ++ (":").data)) = ("        ").data from rfl]
  rw [show List.takeWhile isWsTab
      (("            return ").data ++ t) = ("            ").data from rfl]
  rw [show List.takeWhile isWsTab (("        else:").data) = ("        ").data
    from rfl]
  rw [show List.takeWhile isWsTab
      (("            return ").data ++ f) = ("            ").data from rfl]
  rw [show List.foldl commonPre (("    ").data)
      [("        ").data, ("            ").data, ("        ").data,
        ("            ").data] = ("    ").data from by decide]
  simp only [List.map_cons, List.map_nil]
  rw [show (if (("    ").data).isPrefixOf ([] : List Char) then
      ([] : List Char).drop (("    ").data).length else []) = [] from rfl]
  rw [show (if (("    ").data).isPrefixOf
        (("    def ").data ++ (n ++ ("(a, b):").data)) then
      (("    def ").data ++ (n ++ ("(a, b):").data)).drop
        (("    ").data).length
      else (("    def ").data ++ (n ++ ("(a, b):").data))) =
    ("def ").data ++ (n ++ ("(a, b):").data) from rfl]
  rw [show (if (("    ").data).isPrefixOf
        (("        if ").data ++ (c ++ (":").data)) then
      (("        if ").data ++ (c ++ (":").data)).drop (("    ").data).length
      else (("        if ").data ++ (c ++ (":").data))) =
    ("    if ").data ++ (c ++ (":").data) from rfl]
  rw [show (if (("    ").data).isPrefixOf
        (("            return ").data ++ t) then
      (("            return ").data ++ t).drop (("    ").data).length
      else (("            return ").data ++ t)) =
    ("        return ").data ++ t from rfl]
  rw [show (if (("    ").data).isPrefixOf (("        else:").data) then
      (("        else:").data).drop (("    ").data).length
      else (("        else:").data)) = ("    else:").data from rfl]
  rw [show (if (("    ").data).isPrefixOf
        (("            return ").data ++ f) then
      (("            return ").data ++ f).drop (("    ").data).length
      else (("            return ").data ++ f)) =
    ("        return ").data ++ f from rfl]
  simp only [joinNl]
  simp only [show ("\ndef ").data = '\n' :: ("def ").data from rfl,
    show ("(a, b):\n    if ").data =
      ("(a, b):").data ++ '\n' :: ("    if ").data from rfl,
    show (":\n        return ").data =
      (":").data ++ '\n' :: ("        return ").data from rfl,
    show ("\n    else:\n        return ").data =
      '\n' :: (("    else:").data ++ '\n' :: ("        return ").data) from rfl,
    show ("\n").data = ['\n'] from rfl,
    List.cons_append, List.append_assoc, List.nil_append, List.append_nil]

/-! ## Well-formedness of `ast.unparse` renderings of supported expressions -/

theorem head_append_left {a b : List Char} (ha : a ≠ []) :
    (a ++ b).headD ' ' = a.headD ' ' := by
  cases a with
  | nil => exact absurd rfl ha
  | cons c r => rfl

theorem getLast_append_right {a : List Char} {b : List Char} (hb : b ≠ []) :
    (a ++ b).getLast? = b.getLast? := by
  induction a with
  | nil => rfl
  | cons c a' ih =>
    have h2 : a' ++ b ≠ [] := by
      intro h
      exact hb (List.append_eq_nil.mp h).2
    rw [List.cons_append]
    cases hab : a' ++ b with
    | nil => exact absurd hab h2
    | cons x xs =>
      rw [List.getLast?_cons_cons]
      exact hab ▸ ih

theorem mem_of_getLast_some : ∀ {l : List Char} {x : Char},
    l.getLast? = some x → x ∈ l
  | [], _, h => by cases h
  | [c], x, h => by
    have hx : x = c := by
      have : ([c] : List Char).getLast? = some c := rfl
      rw [this] at h
      exact (Option.some_inj.mp h).symm
    rw [hx]
    simp
  | c :: d :: r, x, h => by
    rw [List.getLast?_cons_cons] at h
    exact List.mem_cons_of_mem _ (mem_of_getLast_some h)

theorem headD_not_ws {l : List Char} (hne : l ≠ [])
    (hall : ∀ d ∈ l, isWsRe d = false) : isWsRe (l.headD ' ') = false := by
  cases l with
  | nil => exact absurd rfl hne
  | cons c r => exact hall c (by simp)

/-- A whitespace character (in the `\s` sense) is one of six concrete
characters. -/
theorem ws_chars {c : Char} (h : isWsRe c = true) :
    c = ' ' ∨ c = '\t' ∨ c = '\n' ∨ c = '\r' ∨ c = '\x0b' ∨ c = '\x0c' := by
  unfold isWsRe at h
  simp only [Bool.or_eq_true, decide_eq_true_eq] at h
  tauto

theorem alnum_not_ws {c : Char} (h : c.isAlphanum = true) :
    isWsRe c = false := by
  by_contra hne
  have hw : isWsRe c = true := by
    cases hv : isWsRe c with
    | false => exact absurd hv hne
    | true => rfl
  rcases ws_chars hw with rfl | rfl | rfl | rfl | rfl | rfl <;>
    exact absurd h (by decide)

theorem identChar_ok {c : Char} (h : identChar c = true) :
    exprOkChar c = true ∧ isWsRe c = false := by
  have h2 : c.isAlphanum = true ∨ c = '_' := by
    unfold identChar at h
    simp only [Bool.or_eq_true, decide_eq_true_eq] at h
    exact h
  rcases h2 with h1 | rfl
  · exact ⟨by unfold exprOkChar; simp [h1], alnum_not_ws h1⟩
  · exact ⟨by decide, by decide⟩

theorem digitChar_ok {m : Nat} (h : m < 10) :
    exprOkChar (digitChar m) = true ∧ isWsRe (digitChar m) = false := by
  interval_cases m <;> exact ⟨by decide, by decide⟩

theorem numReprAux_ok : ∀ (fuel n : Nat), ∀ d ∈ numReprAux fuel n,
    exprOkChar d = true ∧ isWsRe d = false
  | 0, n => by
    intro d hd
    simp [numReprAux] at hd
  | fuel + 1, n => by
    intro d hd
    unfold numReprAux at hd
    by_cases hn : n < 10
    · rw [if_pos hn] at hd
      have hdc : d = digitChar n := by simpa using hd
      rw [hdc]
      exact digitChar_ok hn
    · rw [if_neg hn] at hd
      rcases List.mem_append.mp hd with h1 | h2
      · exact numReprAux_ok fuel (n / 10) d h1
      · have hdc : d = digitChar (n % 10) := by simpa using h2
        rw [hdc]
        exact digitChar_ok (Nat.mod_lt _ (by decide))

theorem numReprAux_ne (fuel n : Nat) : numReprAux (fuel + 1) n ≠ [] := by
  unfold numReprAux
  by_cases hn : n < 10
  · rw [if_pos hn]
    simp
  · rw [if_neg hn]
    simp

theorem bopChar_ok (op : PyBinOp) :
    exprOkChar (bopChar op) = true ∧ isWsRe (bopChar op) = false := by
  cases op <;> exact ⟨by decide, by decide⟩

theorem copStr_ok (op : PyCmpOp) :
    ∀ d ∈ copStr op, exprOkChar d = true ∧ isWsRe d = false := by
  cases op <;> decide

theorem pwrap_all {inner : List Char}
    (h : ∀ d ∈ inner, exprOkChar d = true) (p req : Nat) :
    ∀ d ∈ pwrap inner p req, exprOkChar d = true := by
  unfold pwrap
  split
  · intro d hd
    simp at hd
    rcases hd with rfl | hd | rfl
    · decide
    · exact h d hd
    · decide
  · exact h

theorem pwrap_ne {inner : List Char} (hne : inner ≠ []) (p req : Nat) :
    pwrap inner p req ≠ [] := by
  unfold pwrap
  split
  · simp
  · exact hne

theorem pwrap_head {inner : List Char}
    (hh : isWsRe (inner.headD ' ') = false) (p req : Nat) :
    isWsRe ((pwrap inner p req).headD ' ') = false := by
  unfold pwrap
  split
  · rw [List.headD_cons]
    decide
  · exact hh

theorem pwrap_last {inner : List Char}
    (hl : ∀ x, inner.getLast? = some x → isWsRe x = false) (p req : Nat) :
    ∀ x, (pwrap inner p req).getLast? = some x → isWsRe x = false := by
  unfold pwrap
  split
  · intro x hx
    have hform : '(' :: (inner ++ [')']) = ('(' :: inner) ++ [')'] := by
      simp
    rw [hform, getLast_append_right (by simp)] at hx
    have : x = ')' := by
      have h1 : ([')'] : List Char).getLast? = some ')' := rfl
      rw [h1] at hx
      exact (Option.some_inj.mp hx).symm
    rw [this]
    decide
  · exact hl

theorem getLast_ws_chain {A B : List Char} (hB : B ≠ [])
    (h : ∀ x, B.getLast? = some x → isWsRe x = false) :
    ∀ x, (A ++ B).getLast? = some x → isWsRe x = false := fun x hx =>
  h x (by rwa [getLast_append_right hB] at hx)

/-- Rendering well-formedness for the supported expression grammar: the
unparsed text is non-empty, uses only expression characters, and starts
and ends on a non-whitespace character. -/
theorem unparse_props : ∀ (e : PyExpr), supportedB e = true →
    (unparseE e ≠ [] ∧ (∀ d ∈ unparseE e, exprOkChar d = true)) ∧
      (isWsRe ((unparseE e).headD ' ') = false ∧
        (∀ x, (unparseE e).getLast? = some x → isWsRe x = false))
  | .name id, h => by
    have h' : (!id.data.isEmpty && id.data.all identChar) = true := h
    have hne : id.data ≠ [] := by
      intro he
      rw [he] at h'
      exact absurd ((Bool.and_eq_true _ _).mp h').1 (by decide)
    have hall : ∀ d ∈ id.data, identChar d = true :=
      List.all_eq_true.mp ((Bool.and_eq_true _ _).mp h').2
    refine ⟨⟨hne, fun d hd => (identChar_ok (hall d hd)).1⟩,
      headD_not_ws hne (fun d hd => (identChar_ok (hall d hd)).2),
      fun x hx => (identChar_ok (hall x (mem_of_getLast_some hx))).2⟩
  | .num n, _ => by
    refine ⟨⟨numReprAux_ne n n, fun d hd => (numReprAux_ok _ _ d hd).1⟩,
      headD_not_ws (numReprAux_ne n n)
        (fun d hd => (numReprAux_ok _ _ d hd).2),
      fun x hx => (numReprAux_ok _ _ x (mem_of_getLast_some hx)).2⟩
  | .binop op l r, h => by
    have hlr := Bool.and_eq_true _ _ |>.mp h
    have hl := unparse_props l hlr.1
    have hr := unparse_props r hlr.2
    have hLne : pwrap (unparseE l) (exprPrec l) (bopPrec op) ≠ [] :=
      pwrap_ne hl.1.1 _ _
    have hRne : pwrap (unparseE r) (exprPrec r) (bopPrec op + 1) ≠ [] :=
      pwrap_ne hr.1.1 _ _
    have hshape : unparseE (.binop op l r) =
        (pwrap (unparseE l) (exprPrec l) (bopPrec op) ++
          [' ', bopChar op, ' ']) ++
          pwrap (unparseE r) (exprPrec r) (bopPrec op + 1) := by
      show pwrap (unparseE l) (exprPrec l) (bopPrec op) ++
          ' ' :: bopChar op :: ' ' ::
            pwrap (unparseE r) (exprPrec r) (bopPrec op + 1) = _
      simp
    constructor
    constructor
    · show pwrap (unparseE l) (exprPrec l) (bopPrec op) ++
        ' ' :: bopChar op :: ' ' ::
          pwrap (unparseE r) (exprPrec r) (bopPrec op + 1) ≠ []
      simp
    · intro d hd
      rw [hshape] at hd
      rcases List.mem_append.mp hd with h1 | h2
      · rcases List.mem_append.mp h1 with h3 | h4
        · exact pwrap_all hl.1.2 _ _ d h3
        · simp at h4
          rcases h4 with rfl | rfl | rfl
          · decide
          · exact (bopChar_ok op).1
          · decide
      · exact pwrap_all hr.1.2 _ _ d h2
    constructor
    · show isWsRe ((pwrap (unparseE l) (exprPrec l) (bopPrec op) ++
        ' ' :: bopChar op :: ' ' ::
          pwrap (unparseE r) (exprPrec r) (bopPrec op + 1)).headD ' ') = false
      rw [head_append_left hLne]
      exact pwrap_head hl.2.1 _ _
    · rw [hshape]
      exact getLast_ws_chain hRne (pwrap_last hr.2.2 _ _)
  | .cmp op l r, h => by
    have hlr := Bool.and_eq_true _ _ |>.mp h
    have hl := unparse_props l hlr.1
    have hr := unparse_props r hlr.2
    have hLne : pwrap (unparseE l) (exprPrec l) 5 ≠ [] :=
      pwrap_ne hl.1.1 _ _
    have hRne : pwrap (unparseE r) (exprPrec r) 5 ≠ [] :=
      pwrap_ne hr.1.1 _ _
    have hshape : unparseE (.cmp op l r) =
        (pwrap (unparseE l) (exprPrec l) 5 ++
          (' ' :: (copStr op ++ [' ']))) ++
          pwrap (unparseE r) (exprPrec r) 5 := by
      show pwrap (unparseE l) (exprPrec l) 5 ++
          ' ' :: (copStr op ++ ' ' :: pwrap (unparseE r) (exprPrec r) 5) = _
      simp
    constructor
    constructor
    · show pwrap (unparseE l) (exprPrec l) 5 ++
        ' ' :: (copStr op ++ ' ' :: pwrap (unparseE r) (exprPrec r) 5) ≠ []
      simp
    · intro d hd
      rw [hshape] at hd
      rcases List.mem_append.mp hd with h1 | h2
      · rcases List.mem_append.mp h1 with h3 | h4
        · exact pwrap_all hl.1.2 _ _ d h3
        · simp at h4
          rcases h4 with rfl | h5 | rfl
          · decide
          · exact (copStr_ok op d h5).1
          · decide
      · exact pwrap_all hr.1.2 _ _ d h2
    constructor
    · show isWsRe ((pwrap (unparseE l) (exprPrec l) 5 ++
        ' ' :: (copStr op ++ ' ' ::
          pwrap (unparseE r) (exprPrec r) 5)).headD ' ') = false
      rw [head_append_left hLne]
      exact pwrap_head hl.2.1 _ _
    · rw [hshape]
      exact getLast_ws_chain hRne (pwrap_last hr.2.2 _ _)
  | .call f a, h => by
    exact absurd h (by simp [supportedB])
  | .subscript v i, h => by
    exact absurd h (by simp [supportedB])

/-! ## Symbolic dedent of the C and Java templates -/

set_option maxHeartbeats 2000000 in
/-- The C template, dedented symbolically: for newline-free substituted pieces, `textwrap.dedent` strips the common 4-space margin. -/
theorem cFString_flat (n p c t f : List Char)
    (hn : '\n' ∉ n) (hp : '\n' ∉ p) (hc : '\n' ∉ c) (ht : '\n' ∉ t) (hf : '\n' ∉ f) :
    dedentL (cFString n p c t f) =
      ("\n#include <stdio.h>\n\ndouble ").data ++ (n ++ (("(").data ++ (p ++ ((") \x7b\n    if (").data ++ (c ++ ((") \x7b\n        return ").data ++ (t ++ ((";\n    \x7d else \x7b\n        return ").data ++ (f ++ ((";\n    \x7d\n\x7d\n\nint main(void) \x7b\n    // Example driver (not used by the Python round-trip)\n    return 0;\n\x7d\n").data)))))))))) := by
  have hl3 : '\n' ∉ ("    double ").data ++ (n ++ (("(").data ++ (p ++ ((") \x7b").data)))) :=
    nonl_append (by decide) (nonl_append hn (nonl_append (by decide) (nonl_append hp (by decide))))
  have hl4 : '\n' ∉ ("        if (").data ++ (c ++ ((") \x7b").data)) :=
    nonl_append (by decide) (nonl_append hc (by decide))
  have hl5 : '\n' ∉ ("            return ").data ++ (t ++ ((";").data)) :=
    nonl_append (by decide) (nonl_append ht (by decide))
  have hl7 : '\n' ∉ ("            return ").data ++ (f ++ ((";").data)) :=
    nonl_append (by decide) (nonl_append hf (by decide))
  have hsplit : splitNl (cFString n p c t f) =
      [[], ("    #include <stdio.h>").data, [], ("    double ").data ++ (n ++ (("(").data ++ (p ++ ((") \x7b").data)))), ("        if (").data ++ (c ++ ((") \x7b").data)), ("            return ").data ++ (t ++ ((";").data)), ("        \x7d else \x7b").data, ("            return ").data ++ (f ++ ((";").data)), ("        \x7d").data, ("    \x7d").data, [], ("    int main(void) \x7b").data, ("        // Example driver (not used by the Python round-trip)").data, ("        return 0;").data, ("    \x7d").data, ("    ").data] := by
    rw [show cFString n p c t f =
        '\n' :: ((("    #include <stdio.h>").data) ++ '\n' :: ('\n' :: ((("    double ").data ++ (n ++ (("(").data ++ (p ++ ((") \x7b").data))))) ++ '\n' :: ((("        if (").data ++ (c ++ ((") \x7b").data))) ++ '\n' :: ((("            return ").data ++ (t ++ ((";").data))) ++ '\n' :: ((("        \x7d else \x7b").data) ++ '\n' :: ((("            return ").data ++ (f ++ ((";").data))) ++ '\n' :: ((("        \x7d").data) ++ '\n' :: ((("    \x7d").data) ++ '\n' :: ('\n' :: ((("    int main(void) \x7b").data) ++ '\n' :: ((("        // Example driver (not used by the Python round-trip)").data) ++ '\n' :: ((("        return 0;").data) ++ '\n' :: ((("    \x7d").data) ++ '\n' :: (("    ").data))))))))))))))) from by
      unfold cFString
      simp only [show ("\n    #include <stdio.h>\n\n    double ").data =
          '\n' :: (("    #include <stdio.h>").data ++ '\n' :: ('\n' :: (("    double ").data))) from rfl,
        show (") \x7b\n        if (").data =
          (") \x7b").data ++ '\n' :: (("        if (").data) from rfl,
        show (") \x7b\n            return ").data =
          (") \x7b").data ++ '\n' :: (("            return ").data) from rfl,
        show (";\n        \x7d else \x7b\n            return ").data =
          (";").data ++ '\n' :: (("        \x7d else \x7b").data ++ '\n' :: (("            return ").data)) from rfl,
        show (";\n        \x7d\n    \x7d\n\n    int main(void) \x7b\n        // Example driver (not used by the Python round-trip)\n        return 0;\n    \x7d\n    ").data =
          (";").data ++ '\n' :: (("        \x7d").data ++ '\n' :: (("    \x7d").data ++ '\n' :: ('\n' :: (("    int main(void) \x7b").data ++ '\n' :: (("        // Example driver (not used by the Python round-trip)").data ++ '\n' :: (("        return 0;").data ++ '\n' :: (("    \x7d").data ++ '\n' :: (("    ").data)))))))) from rfl,
        List.cons_append, List.append_assoc, List.nil_append]]
    rw [splitNl_nl,
      splitNl_chunk _ _ (by decide),
      splitNl_nl,
      splitNl_chunk _ _ hl3,
      splitNl_chunk _ _ hl4,
      splitNl_chunk _ _ hl5,
      splitNl_chunk _ _ (by decide),
      splitNl_chunk _ _ hl7,
      splitNl_chunk _ _ (by decide),
      splitNl_chunk _ _ (by decide),
      splitNl_nl,
      splitNl_chunk _ _ (by decide),
      splitNl_chunk _ _ (by decide),
      splitNl_chunk _ _ (by decide),
      splitNl_chunk _ _ (by decide),
      splitNl_nonl _ (by decide)]
  have hb1 := blank_keep (("    #include <stdio.h>").data) '#'
    (by decide) (by decide)
  have hb3 := blank_keep (("    double ").data ++ (n ++ (("(").data ++ (p ++ ((") \x7b").data))))) 'd'
    (List.mem_append_left _ (by decide)) (by decide)
  have hb4 := blank_keep (("        if (").data ++ (c ++ ((") \x7b").data))) 'i'
    (List.mem_append_left _ (by decide)) (by decide)
  have hb5 := blank_keep (("            return ").data ++ (t ++ ((";").data))) 'r'
    (List.mem_append_left _ (by decide)) (by decide)
  have hb6 := blank_keep (("        \x7d else \x7b").data) '\x7d'
    (by decide) (by decide)
  have hb7 := blank_keep (("            return ").data ++ (f ++ ((";").data))) 'r'
    (List.mem_append_left _ (by decide)) (by decide)
  have hb8 := blank_keep (("        \x7d").data) '\x7d'
    (by decide) (by decide)
  have hb9 := blank_keep (("    \x7d").data) '\x7d'
    (by decide) (by decide)
  have hb11 := blank_keep (("    int main(void) \x7b").data) 'i'
    (by decide) (by decide)
  have hb12 := blank_keep (("        // Example driver (not used by the Python round-trip)").data) '/'
    (by decide) (by decide)
  have hb13 := blank_keep (("        return 0;").data) 'r'
    (by decide) (by decide)
  have hbE : (if ([] : List Char) ≠ [] && ([] : List Char).all isWsTab
      then ([] : List Char) else []) = [] := rfl
  have hbW0 : (if ("    ").data ≠ [] && (("    ").data).all isWsTab
      then ([] : List Char) else ("    ").data) = [] := rfl
  unfold dedentL
  rw [hsplit]
  simp only [List.map_cons, List.map_nil, hb1, hb3, hb4, hb5, hb6, hb7, hb8, hb9, hb11, hb12, hb13, hbE, hbW0]
  simp only [List.filter_cons, List.filter_nil,
    show (!([] : List Char).isEmpty) = false from rfl,
    show (!(("    #include <stdio.h>").data).isEmpty) = true from rfl,
    show (!(("    double ").data ++ (n ++ (("(").data ++ (p ++ ((") \x7b").data))))).isEmpty) = true from rfl,
    show (!(("        if (").data ++ (c ++ ((") \x7b").data))).isEmpty) = true from rfl,
    show (!(("            return ").data ++ (t ++ ((";").data))).isEmpty) = true from rfl,
    show (!(("        \x7d else \x7b").data).isEmpty) = true from rfl,
    show (!(("            return ").data ++ (f ++ ((";").data))).isEmpty) = true from rfl,
    show (!(("        \x7d").data).isEmpty) = true from rfl,
    show (!(("    \x7d").data).isEmpty) = true from rfl,
    show (!(("    int main(void) \x7b").data).isEmpty) = true from rfl,
    show (!(("        // Example driver (not used by the Python round-trip)").data).isEmpty) = true from rfl,
    show (!(("        return 0;").data).isEmpty) = true from rfl,
    if_true, if_false, Bool.false_eq_true, ite_false, ite_true]
  simp only [List.map_cons, List.map_nil]
  simp only [show List.takeWhile isWsTab
      (("    #include <stdio.h>").data) = ("    ").data from rfl,
    show List.takeWhile isWsTab
      (("    double ").data ++ (n ++ (("(").data ++ (p ++ ((") \x7b").data))))) = ("    ").data from rfl,
    show List.takeWhile isWsTab
      (("        if (").data ++ (c ++ ((") \x7b").data))) = ("        ").data from rfl,
    show List.takeWhile isWsTab
      (("            return ").data ++ (t ++ ((";").data))) = ("            ").data from rfl,
    show List.takeWhile isWsTab
      (("        \x7d else \x7b").data) = ("        ").data from rfl,
    show List.takeWhile isWsTab
      (("            return ").data ++ (f ++ ((";").data))) = ("            ").data from rfl,
    show List.takeWhile isWsTab
      (("        \x7d").data) = ("        ").data from rfl,
    show List.takeWhile isWsTab
      (("    \x7d").data) = ("    ").data from rfl,
    show List.takeWhile isWsTab
      (("    int main(void) \x7b").data) = ("    ").data from rfl,
    show List.takeWhile isWsTab
      (("        // Example driver (not used by the Python round-trip)").data) = ("        ").data from rfl,
    show List.takeWhile isWsTab
      (("        return 0;").data) = ("        ").data from rfl]
  rw [show List.foldl commonPre (("    ").data)
      [("    ").data, ("        ").data, ("            ").data, ("        ").data, ("            ").data, ("        ").data, ("    ").data, ("    ").data, ("        ").data, ("        ").data, ("    ").data] = ("    ").data from by decide]
  simp only [List.map_cons, List.map_nil]
  simp only [show (if (("    ").data).isPrefixOf ([] : List Char) then
      ([] : List Char).drop (("    ").data).length else []) = [] from rfl,
    show (if (("    ").data).isPrefixOf
        (("    #include <stdio.h>").data) then
      (("    #include <stdio.h>").data).drop (("    ").data).length
      else (("    #include <stdio.h>").data)) =
    ("#include <stdio.h>").data from rfl,
    show (if (("    ").data).isPrefixOf
        (("    double ").data ++ (n ++ (("(").data ++ (p ++ ((") \x7b").data))))) then
      (("    double ").data ++ (n ++ (("(").data ++ (p ++ ((") \x7b").data))))).drop (("    ").data).length
      else (("    double ").data ++ (n ++ (("(").data ++ (p ++ ((") \x7b").data)))))) =
    ("double ").data ++ (n ++ (("(").data ++ (p ++ ((") \x7b").data)))) from rfl,
    show (if (("    ").data).isPrefixOf
        (("        if (").data ++ (c ++ ((") \x7b").data))) then
      (("        if (").data ++ (c ++ ((") \x7b").data))).drop (("    ").data).length
      else (("        if (").data ++ (c ++ ((") \x7b").data)))) =
    ("    if (").data ++ (c ++ ((") \x7b").data)) from rfl,
    show (if (("    ").data).isPrefixOf
        (("            return ").data ++ (t ++ ((";").data))) then
      (("            return ").data ++ (t ++ ((";").data))).drop (("    ").data).length
      else (("            return ").data ++ (t ++ ((";").data)))) =
    ("        return ").data ++ (t ++ ((";").data)) from rfl,
    show (if (("    ").data).isPrefixOf
        (("        \x7d else \x7b").data) then
      (("        \x7d else \x7b").data).drop (("    ").data).length
      else (("        \x7d else \x7b").data)) =
    ("    \x7d else \x7b").data from rfl,
    show (if (("    ").data).isPrefixOf
        (("            return ").data ++ (f ++ ((";").data))) then
      (("            return ").data ++ (f ++ ((";").data))).drop (("    ").data).length
      else (("            return ").data ++ (f ++ ((";").data)))) =
    ("        return ").data ++ (f ++ ((";").data)) from rfl,
    show (if (("    ").data).isPrefixOf
        (("        \x7d").data) then
      (("        \x7d").data).drop (("    ").data).length
      else (("        \x7d").data)) =
    ("    \x7d").data from rfl,
    show (if (("    ").data).isPrefixOf
        (("    \x7d").data) then
      (("    \x7d").data).drop (("    ").data).length
      else (("    \x7d").data)) =
    ("\x7d").data from rfl,
    show (if (("    ").data).isPrefixOf
        (("    int main(void) \x7b").data) then
      (("    int main(void) \x7b").data).drop (("    ").data).length
      else (("    int main(void) \x7b").data)) =
    ("int main(void) \x7b").data from rfl,
    show (if (("    ").data).isPrefixOf
        (("        // Example driver (not used by the Python round-trip)").data) then
      (("        // Example driver (not used by the Python round-trip)").data).drop (("    ").data).length
      else (("        // Example driver (not used by the Python round-trip)").data)) =
    ("    // Example driver (not used by the Python round-trip)").data from rfl,
    show (if (("    ").data).isPrefixOf
        (("        return 0;").data) then
      (("        return 0;").data).drop (("    ").data).length
      else (("        return 0;").data)) =
    ("    return 0;").data from rfl]
  simp only [joinNl]
  simp only [show ("\n#include <stdio.h>\n\ndouble ").data =
      '\n' :: (("#include <stdio.h>").data ++ '\n' :: ('\n' :: (("double ").data))) from rfl,
    show (") \x7b\n    if (").data =
      (") \x7b").data ++ '\n' :: (("    if (").data) from rfl,
    show (") \x7b\n        return ").data =
      (") \x7b").data ++ '\n' :: (("        return ").data) from rfl,
    show (";\n    \x7d else \x7b\n        return ").data =
      (";").data ++ '\n' :: (("    \x7d else \x7b").data ++ '\n' :: (("        return ").data)) from rfl,
    show (";\n    \x7d\n\x7d\n\nint main(void) \x7b\n    // Example driver (not used by the Python round-trip)\n    return 0;\n\x7d\n").data =
      (";").data ++ '\n' :: (("    \x7d").data ++ '\n' :: (("\x7d").data ++ '\n' :: ('\n' :: (("int main(void) \x7b").data ++ '\n' :: (("    // Example driver (not used by the Python round-trip)").data ++ '\n' :: (("    return 0;").data ++ '\n' :: (("\x7d").data ++ '\n' :: ([] : List Char)))))))) from rfl,
    List.cons_append, List.append_assoc, List.nil_append, List.append_nil]

set_option maxHeartbeats 2000000 in
/-- The Java template, dedented symbolically: for newline-free substituted pieces, `textwrap.dedent` strips the common 4-space margin. -/
theorem javaFString_flat (n p c t f : List Char)
    (hn : '\n' ∉ n) (hp : '\n' ∉ p) (hc : '\n' ∉ c) (ht : '\n' ∉ t) (hf : '\n' ∉ f) :
    dedentL (javaFString n p c t f) =
      ("\npublic class Original \x7b\n    public static double ").data ++ (n ++ (("(").data ++ (p ++ ((") \x7b\n        if (").data ++ (c ++ ((") \x7b\n            return ").data ++ (t ++ ((";\n        \x7d else \x7b\n            return ").data ++ (f ++ ((";\n        \x7d\n    \x7d\n\x7d\n").data)))))))))) := by
  have hl2 : '\n' ∉ ("        public static double ").data ++ (n ++ (("(").data ++ (p ++ ((") \x7b").data)))) :=
    nonl_append (by decide) (nonl_append hn (nonl_append (by decide) (nonl_append hp (by decide))))
  have hl3 : '\n' ∉ ("            if (").data ++ (c ++ ((") \x7b").data)) :=
    nonl_append (by decide) (nonl_append hc (by decide))
  have hl4 : '\n' ∉ ("                return ").data ++ (t ++ ((";").data)) :=
    nonl_append (by decide) (nonl_append ht (by decide))
  have hl6 : '\n' ∉ ("                return ").data ++ (f ++ ((";").data)) :=
    nonl_append (by decide) (nonl_append hf (by decide))
  have hsplit : splitNl (javaFString n p c t f) =
      [[], ("    public class Original \x7b").data, ("        public static double ").data ++ (n ++ (("(").data ++ (p ++ ((") \x7b").data)))), ("            if (").data ++ (c ++ ((") \x7b").data)), ("                return ").data ++ (t ++ ((";").data)), ("            \x7d else \x7b").data, ("                return ").data ++ (f ++ ((";").data)), ("            \x7d").data, ("        \x7d").data, ("    \x7d").data, ("    ").data] := by
    rw [show javaFString n p c t f =
        '\n' :: ((("    public class Original \x7b").data) ++ '\n' :: ((("        public static double ").data ++ (n ++ (("(").data ++ (p ++ ((") \x7b").data))))) ++ '\n' :: ((("            if (").data ++ (c ++ ((") \x7b").data))) ++ '\n' :: ((("                return ").data ++ (t ++ ((";").data))) ++ '\n' :: ((("            \x7d else \x7b").data) ++ '\n' :: ((("                return ").data ++ (f ++ ((";").data))) ++ '\n' :: ((("            \x7d").data) ++ '\n' :: ((("        \x7d").data) ++ '\n' :: ((("    \x7d").data) ++ '\n' :: (("    ").data)))))))))) from by
      unfold javaFString
      simp only [show ("\n    public class Original \x7b\n        public static double ").data =
          '\n' :: (("    public class Original \x7b").data ++ '\n' :: (("        public static double ").data)) from rfl,
        show (") \x7b\n            if (").data =
          (") \x7b").data ++ '\n' :: (("            if (").data) from rfl,
        show (") \x7b\n                return ").data =
          (") \x7b").data ++ '\n' :: (("                return ").data) from rfl,
        show (";\n            \x7d else \x7b\n                return ").data =
          (";").data ++ '\n' :: (("            \x7d else \x7b").data ++ '\n' :: (("                return ").data)) from rfl,
        show (";\n            \x7d\n        \x7d\n    \x7d\n    ").data =
          (";").data ++ '\n' :: (("            \x7d").data ++ '\n' :: (("        \x7d").data ++ '\n' :: (("    \x7d").data ++ '\n' :: (("    ").data)))) from rfl,
        List.cons_append, List.append_assoc, List.nil_append]]
    rw [splitNl_nl,
      splitNl_chunk _ _ (by decide),
      splitNl_chunk _ _ hl2,
      splitNl_chunk _ _ hl3,
      splitNl_chunk _ _ hl4,
      splitNl_chunk _ _ (by decide),
      splitNl_chunk _ _ hl6,
      splitNl_chunk _ _ (by decide),
      splitNl_chunk _ _ (by decide),
      splitNl_chunk _ _ (by decide),
      splitNl_nonl _ (by decide)]
  have hb1 := blank_keep (("    public class Original \x7b").data) 'p'
    (by decide) (by decide)
  have hb2 := blank_keep (("        public static double ").data ++ (n ++ (("(").data ++ (p ++ ((") \x7b").data))))) 'p'
    (List.mem_append_left _ (by decide)) (by decide)
  have hb3 := blank_keep (("            if (").data ++ (c ++ ((") \x7b").data))) 'i'
    (List.mem_append_left _ (by decide)) (by decide)
  have hb4 := blank_keep (("                return ").data ++ (t ++ ((";").data))) 'r'
    (List.mem_append_left _ (by decide)) (by decide)
  have hb5 := blank_keep (("            \x7d else \x7b").data) '\x7d'
    (by decide) (by decide)
  have hb6 := blank_keep (("                return ").data ++ (f ++ ((";").data))) 'r'
    (List.mem_append_left _ (by decide)) (by decide)
  have hb7 := blank_keep (("            \x7d").data) '\x7d'
    (by decide) (by decide)
  have hb8 := blank_keep (("        \x7d").data) '\x7d'
    (by decide) (by decide)
  have hb9 := blank_keep (("    \x7d").data) '\x7d'
    (by decide) (by decide)
  have hbE : (if ([] : List Char) ≠ [] && ([] : List Char).all isWsTab
      then ([] : List Char) else []) = [] := rfl
  have hbW0 : (if ("    ").data ≠ [] && (("    ").data).all isWsTab
      then ([] : List Char) else ("    ").data) = [] := rfl
  unfold dedentL
  rw [hsplit]
  simp only [List.map_cons, List.map_nil, hb1, hb2, hb3, hb4, hb5, hb6, hb7, hb8, hb9, hbE, hbW0]
  simp only [List.filter_cons, List.filter_nil,
    show (!([] : List Char).isEmpty) = false from rfl,
    show (!(("    public class Original \x7b").data).isEmpty) = true from rfl,
    show (!(("        public static double ").data ++ (n ++ (("(").data ++ (p ++ ((") \x7b").data))))).isEmpty) = true from rfl,
    show (!(("            if (").data ++ (c ++ ((") \x7b").data))).isEmpty) = true from rfl,
    show (!(("                return ").data ++ (t ++ ((";").data))).isEmpty) = true from rfl,
    show (!(("            \x7d else \x7b").data).isEmpty) = true from rfl,
    show (!(("                return ").data ++ (f ++ ((";").data))).isEmpty) = true from rfl,
    show (!(("            \x7d").data).isEmpty) = true from rfl,
    show (!(("        \x7d").data).isEmpty) = true from rfl,
    show (!(("    \x7d").data).isEmpty) = true from rfl,
    if_true, if_false, Bool.false_eq_true, ite_false, ite_true]
  simp only [List.map_cons, List.map_nil]
  simp only [show List.takeWhile isWsTab
      (("    public class Original \x7b").data) = ("    ").data from rfl,
    show List.takeWhile isWsTab
      (("        public static double ").data ++ (n ++ (("(").data ++ (p ++ ((") \x7b").data))))) = ("        ").data from rfl,
    show List.takeWhile isWsTab
      (("            if (").data ++ (c ++ ((") \x7b").data))) = ("            ").data from rfl,
    show List.takeWhile isWsTab
      (("                return ").data ++ (t ++ ((";").data))) = ("                ").data from rfl,
    show List.takeWhile isWsTab
      (("            \x7d else \x7b").data) = ("            ").data from rfl,
    show List.takeWhile isWsTab
      (("                return ").data ++ (f ++ ((";").data))) = ("                ").data from rfl,
    show List.takeWhile isWsTab
      (("            \x7d").data) = ("            ").data from rfl,
    show List.takeWhile isWsTab
      (("        \x7d").data) = ("        ").data from rfl,
    show List.takeWhile isWsTab
      (("    \x7d").data) = ("    ").data from rfl]
  rw [show List.foldl commonPre (("    ").data)
      [("        ").data, ("            ").data, ("                ").data, ("            ").data, ("                ").data, ("            ").data, ("        ").data, ("    ").data] = ("    ").data from by decide]
  simp only [List.map_cons, List.map_nil]
  simp only [show (if (("    ").data).isPrefixOf ([] : List Char) then
      ([] : List Char).drop (("    ").data).length else []) = [] from rfl,
    show (if (("    ").data).isPrefixOf
        (("    public class Original \x7b").data) then
      (("    public class Original \x7b").data).drop (("    ").data).length
      else (("    public class Original \x7b").data)) =
    ("public class Original \x7b").data from rfl,
    show (if (("    ").data).isPrefixOf
        (("        public static double ").data ++ (n ++ (("(").data ++ (p ++ ((") \x7b").data))))) then
      (("        public static double ").data ++ (n ++ (("(").data ++ (p ++ ((") \x7b").data))))).drop (("    ").data).length
      else (("        public static double ").data ++ (n ++ (("(").data ++ (p ++ ((") \x7b").data)))))) =
    ("    public static double ").data ++ (n ++ (("(").data ++ (p ++ ((") \x7b").data)))) from rfl,
    show (if (("    ").data).isPrefixOf
        (("            if (").data ++ (c ++ ((") \x7b").data))) then
      (("            if (").data ++ (c ++ ((") \x7b").data))).drop (("    ").data).length
      else (("            if (").data ++ (c ++ ((") \x7b").data)))) =
    ("        if (").data ++ (c ++ ((") \x7b").data)) from rfl,
    show (if (("    ").data).isPrefixOf
        (("                return ").data ++ (t ++ ((";").data))) then
      (("                return ").data ++ (t ++ ((";").data))).drop (("    ").data).length
      else (("                return ").data ++ (t ++ ((";").data)))) =
    ("            return ").data ++ (t ++ ((";").data)) from rfl,
    show (if (("    ").data).isPrefixOf
        (("            \x7d else \x7b").data) then
      (("            \x7d else \x7b").data).drop (("    ").data).length
      else (("            \x7d else \x7b").data)) =
    ("        \x7d else \x7b").data from rfl,
    show (if (("    ").data).isPrefixOf
        (("                return ").data ++ (f ++ ((";").data))) then
      (("                return ").data ++ (f ++ ((";").data))).drop (("    ").data).length
      else (("                return ").data ++ (f ++ ((";").data)))) =
    ("            return ").data ++ (f ++ ((";").data)) from rfl,
    show (if (("    ").data).isPrefixOf
        (("            \x7d").data) then
      (("            \x7d").data).drop (("    ").data).length
      else (("            \x7d").data)) =
    ("        \x7d").data from rfl,
    show (if (("    ").data).isPrefixOf
        (("        \x7d").data) then
      (("        \x7d").data).drop (("    ").data).length
      else (("        \x7d").data)) =
    ("    \x7d").data from rfl,
    show (if (("    ").data).isPrefixOf
        (("    \x7d").data) then
      (("    \x7d").data).drop (("    ").data).length
      else (("    \x7d").data)) =
    ("\x7d").data from rfl]
  simp only [joinNl]
  simp only [show ("\npublic class Original \x7b\n    public static double ").data =
      '\n' :: (("public class Original \x7b").data ++ '\n' :: (("    public static double ").data)) from rfl,
    show (") \x7b\n        if (").data =
      (") \x7b").data ++ '\n' :: (("        if (").data) from rfl,
    show (") \x7b\n            return ").data =
      (") \x7b").data ++ '\n' :: (("            return ").data) from rfl,
    show (";\n        \x7d else \x7b\n            return ").data =
      (";").data ++ '\n' :: (("        \x7d else \x7b").data ++ '\n' :: (("            return ").data)) from rfl,
    show (";\n        \x7d\n    \x7d\n\x7d\n").data =
      (";").data ++ '\n' :: (("        \x7d").data ++ '\n' :: (("    \x7d").data ++ '\n' :: (("\x7d").data ++ '\n' :: ([] : List Char)))) from rfl,
    List.cons_append, List.append_assoc, List.nil_append, List.append_nil]

/-! ## The emitted texts match `IF_RETURN_PATTERN` -/

/-- The continuation of the dedented C template after the condition's closing parenthesis matches the tail of the pattern, capturing the two rendered return expressions. -/
theorem afterCond_cShape (t f : List Char)
    (hT : t ≠ []) (hThead : isWsRe (t.headD ' ') = false)
    (hTsemi : ∀ d ∈ t, ¬ d = ';')
    (hF : f ≠ []) (hFhead : isWsRe (f.headD ' ') = false)
    (hFsemi : ∀ d ∈ f, ¬ d = ';') :
    afterCond ((" \x7b\n        return ").data ++ (t ++ ((";\n    \x7d else \x7b\n        return ").data ++ (f ++ (";\n    \x7d\n\x7d\n\nint main(void) \x7b\n    // Example driver (not used by the Python round-trip)\n    return 0;\n\x7d\n").data)))) =
      some (t, f) := by
  refine afterCond_template ([' '] : List Char) (("\n        ").data) ([' '] : List Char)
    (("\n    ").data) ([' '] : List Char) ([' '] : List Char) (("\n        ").data) ([' '] : List Char)
    (("\n    ").data) t f
    (("\n\x7d\n\nint main(void) \x7b\n    // Example driver (not used by the Python round-trip)\n    return 0;\n\x7d\n").data)
    _
    ((("\n        ").data) ++ ((("return").data) ++ (([' '] : List Char) ++ (t ++ ';' :: ((("\n    ").data) ++ '\x7d' :: (([' '] : List Char) ++ ((("else").data) ++ (([' '] : List Char) ++ '\x7b' :: ((("\n        ").data) ++ ((("return").data) ++ (([' '] : List Char) ++ (f ++ ';' :: ((("\n    ").data) ++ '\x7d' :: (("\n\x7d\n\nint main(void) \x7b\n    // Example driver (not used by the Python round-trip)\n    return 0;\n\x7d\n").data))))))))))))))
    ((("\n    ").data) ++ '\x7d' :: (([' '] : List Char) ++ ((("else").data) ++ (([' '] : List Char) ++ '\x7b' :: ((("\n        ").data) ++ ((("return").data) ++ (([' '] : List Char) ++ (f ++ ';' :: ((("\n    ").data) ++ '\x7d' :: (("\n\x7d\n\nint main(void) \x7b\n    // Example driver (not used by the Python round-trip)\n    return 0;\n\x7d\n").data))))))))))
    ((("\n        ").data) ++ ((("return").data) ++ (([' '] : List Char) ++ (f ++ ';' :: ((("\n    ").data) ++ '\x7d' :: (("\n\x7d\n\nint main(void) \x7b\n    // Example driver (not used by the Python round-trip)\n    return 0;\n\x7d\n").data))))))
    ((("\n    ").data) ++ '\x7d' :: (("\n\x7d\n\nint main(void) \x7b\n    // Example driver (not used by the Python round-trip)\n    return 0;\n\x7d\n").data))
    ?_ rfl rfl rfl rfl
    (by decide) (by decide) (by decide) (by decide) (by decide) (by decide)
    (by decide) (by decide) (by decide) (by decide) (by decide)
    hT hThead hTsemi hF hFhead hFsemi
  simp only [show (" \x7b\n        return ").data =
      ' ' :: '\x7b' :: ((("\n        ").data) ++ ((("return").data) ++ ([' '] : List Char))) from rfl,
    show (";\n    \x7d else \x7b\n        return ").data =
      ';' :: ((("\n    ").data) ++ ('\x7d' :: (([' '] : List Char) ++ ((("else").data) ++ (([' '] : List Char) ++ ('\x7b' :: ((("\n        ").data) ++ ((("return").data) ++ ([' '] : List Char))))))))) from rfl,
    show (";\n    \x7d\n\x7d\n\nint main(void) \x7b\n    // Example driver (not used by the Python round-trip)\n    return 0;\n\x7d\n").data =
      ';' :: ((("\n    ").data) ++ ('\x7d' :: (("\n\x7d\n\nint main(void) \x7b\n    // Example driver (not used by the Python round-trip)\n    return 0;\n\x7d\n").data))) from rfl,
    List.cons_append, List.append_assoc, List.nil_append]

/-- The continuation of the dedented Java template after the condition's closing parenthesis matches the tail of the pattern. -/
theorem afterCond_jShape (t f : List Char)
    (hT : t ≠ []) (hThead : isWsRe (t.headD ' ') = false)
    (hTsemi : ∀ d ∈ t, ¬ d = ';')
    (hF : f ≠ []) (hFhead : isWsRe (f.headD ' ') = false)
    (hFsemi : ∀ d ∈ f, ¬ d = ';') :
    afterCond ((" \x7b\n            return ").data ++ (t ++ ((";\n        \x7d else \x7b\n            return ").data ++ (f ++ (";\n        \x7d\n    \x7d\n\x7d\n").data)))) =
      some (t, f) := by
  refine afterCond_template ([' '] : List Char) (("\n            ").data) ([' '] : List Char)
    (("\n        ").data) ([' '] : List Char) ([' '] : List Char) (("\n            ").data) ([' '] : List Char)
    (("\n        ").data) t f
    (("\n    \x7d\n\x7d\n").data)
    _
    ((("\n            ").data) ++ ((("return").data) ++ (([' '] : List Char) ++ (t ++ ';' :: ((("\n        ").data) ++ '\x7d' :: (([' '] : List Char) ++ ((("else").data) ++ (([' '] : List Char) ++ '\x7b' :: ((("\n            ").data) ++ ((("return").data) ++ (([' '] : List Char) ++ (f ++ ';' :: ((("\n        ").data) ++ '\x7d' :: (("\n    \x7d\n\x7d\n").data))))))))))))))
    ((("\n        ").data) ++ '\x7d' :: (([' '] : List Char) ++ ((("else").data) ++ (([' '] : List Char) ++ '\x7b' :: ((("\n            ").data) ++ ((("return").data) ++ (([' '] : List Char) ++ (f ++ ';' :: ((("\n        ").data) ++ '\x7d' :: (("\n    \x7d\n\x7d\n").data))))))))))
    ((("\n            ").data) ++ ((("return").data) ++ (([' '] : List Char) ++ (f ++ ';' :: ((("\n        ").data) ++ '\x7d' :: (("\n    \x7d\n\x7d\n").data))))))
    ((("\n        ").data) ++ '\x7d' :: (("\n    \x7d\n\x7d\n").data))
    ?_ rfl rfl rfl rfl
    (by decide) (by decide) (by decide) (by decide) (by decide) (by decide)
    (by decide) (by decide) (by decide) (by decide) (by decide)
    hT hThead hTsemi hF hFhead hFsemi
  simp only [show (" \x7b\n            return ").data =
      ' ' :: '\x7b' :: ((("\n            ").data) ++ ((("return").data) ++ ([' '] : List Char))) from rfl,
    show (";\n        \x7d else \x7b\n            return ").data =
      ';' :: ((("\n        ").data) ++ ('\x7d' :: (([' '] : List Char) ++ ((("else").data) ++ (([' '] : List Char) ++ ('\x7b' :: ((("\n            ").data) ++ ((("return").data) ++ ([' '] : List Char))))))))) from rfl,
    show (";\n        \x7d\n    \x7d\n\x7d\n").data =
      ';' :: ((("\n        ").data) ++ ('\x7d' :: (("\n    \x7d\n\x7d\n").data))) from rfl,
    List.cons_append, List.append_assoc, List.nil_append]


/-- Searching `IF_RETURN_PATTERN` in the dedented C text: the first (and only successful) match attempt is at the template's `if (`, capturing the three rendered expressions. -/
theorem cText_search (n p c t f : List Char)
    (hn : noIfB n = true) (hp : noIfB p = true)
    (hC : ∀ d ∈ c, exprOkChar d = true)
    (hChead : isWsRe (c.headD ' ') = false)
    (hClast : ∀ e, c.getLast? = some e → isWsRe e = false)
    (hT : t ≠ []) (hThead : isWsRe (t.headD ' ') = false)
    (hTsemi : ∀ d ∈ t, ¬ d = ';')
    (hF : f ≠ []) (hFhead : isWsRe (f.headD ' ') = false)
    (hFsemi : ∀ d ∈ f, ¬ d = ';') :
    patSearch (("\n#include <stdio.h>\n\ndouble ").data ++ (n ++ (("(").data ++ (p ++ ((") \x7b\n    if (").data ++ (c ++ ((") \x7b\n        return ").data ++ (t ++ ((";\n    \x7d else \x7b\n        return ").data ++ (f ++ ((";\n    \x7d\n\x7d\n\nint main(void) \x7b\n    // Example driver (not used by the Python round-trip)\n    return 0;\n\x7d\n").data))))))))))) =
      some (c, t, f) := by
  have hA3 : noIfB (p ++ (") \x7b\n    ").data) = true :=
    noIfB_append_headne p _ hp (by decide) (by decide)
  have hA2 : noIfB (("(").data ++ (p ++ (") \x7b\n    ").data)) = true :=
    noIfB_append_lastne _ _ (by decide) hA3 (by decide)
  have hA1 : noIfB (n ++ (("(").data ++ (p ++ (") \x7b\n    ").data))) = true := by
    refine noIfB_append_headne n _ hn hA2 ?_
    intro h
    exact absurd (Option.some.inj h) (by decide)
  have hPC : noIfB (("\n#include <stdio.h>\n\ndouble ").data ++ (n ++ (("(").data ++ (p ++ ((") \x7b\n    ").data))))) = true :=
    noIfB_append_lastne _ _ (by decide) hA1 (by decide)
  rw [show ("\n#include <stdio.h>\n\ndouble ").data ++ (n ++ (("(").data ++ (p ++ ((") \x7b\n    if (").data ++ (c ++ ((") \x7b\n        return ").data ++ (t ++ ((";\n    \x7d else \x7b\n        return ").data ++ (f ++ ((";\n    \x7d\n\x7d\n\nint main(void) \x7b\n    // Example driver (not used by the Python round-trip)\n    return 0;\n\x7d\n").data)))))))))) =
      (("\n#include <stdio.h>\n\ndouble ").data ++ (n ++ (("(").data ++ (p ++ ((") \x7b\n    ").data))))) ++ (("if (").data ++ (c ++ ')' :: ((" \x7b\n        return ").data ++ (t ++ ((";\n    \x7d else \x7b\n        return ").data ++ (f ++ ((";\n    \x7d\n\x7d\n\nint main(void) \x7b\n    // Example driver (not used by the Python round-trip)\n    return 0;\n\x7d\n").data))))))) from by
    simp only [show (") \x7b\n    if (").data = (") \x7b\n    ").data ++ ("if (").data from rfl,
      show ((") \x7b\n        return ").data : List Char) = ')' :: (" \x7b\n        return ").data from rfl,
      List.cons_append, List.append_assoc, List.nil_append]]
  rw [patSearch_append_skip (("\n#include <stdio.h>\n\ndouble ").data ++ (n ++ (("(").data ++ (p ++ ((") \x7b\n    ").data))))) (("if (").data ++ (c ++ ')' :: ((" \x7b\n        return ").data ++ (t ++ ((";\n    \x7d else \x7b\n        return ").data ++ (f ++ ((";\n    \x7d\n\x7d\n\nint main(void) \x7b\n    // Example driver (not used by the Python round-trip)\n    return 0;\n\x7d\n").data))))))) hPC
    (fun h => absurd (Option.some.inj h.2) (by decide))]
  exact patSearch_of_matchAt
    (patMatchAt_template c ((" \x7b\n        return ").data ++ (t ++ ((";\n    \x7d else \x7b\n        return ").data ++ (f ++ ((";\n    \x7d\n\x7d\n\nint main(void) \x7b\n    // Example driver (not used by the Python round-trip)\n    return 0;\n\x7d\n").data))))) t f hC hChead hClast
      (afterCond_cShape t f hT hThead hTsemi hF hFhead hFsemi))

/-- Searching `IF_RETURN_PATTERN` in the dedented Java text: the first match attempt is at the template's `if (`, capturing the three rendered expressions. -/
theorem jText_search (n p c t f : List Char)
    (hn : noIfB n = true) (hp : noIfB p = true)
    (hC : ∀ d ∈ c, exprOkChar d = true)
    (hChead : isWsRe (c.headD ' ') = false)
    (hClast : ∀ e, c.getLast? = some e → isWsRe e = false)
    (hT : t ≠ []) (hThead : isWsRe (t.headD ' ') = false)
    (hTsemi : ∀ d ∈ t, ¬ d = ';')
    (hF : f ≠ []) (hFhead : isWsRe (f.headD ' ') = false)
    (hFsemi : ∀ d ∈ f, ¬ d = ';') :
    patSearch (("\npublic class Original \x7b\n    public static double ").data ++ (n ++ (("(").data ++ (p ++ ((") \x7b\n        if (").data ++ (c ++ ((") \x7b\n            return ").data ++ (t ++ ((";\n        \x7d else \x7b\n            return ").data ++ (f ++ ((";\n        \x7d\n    \x7d\n\x7d\n").data))))))))))) =
      some (c, t, f) := by
  have hA3 : noIfB (p ++ (") \x7b\n        ").data) = true :=
    noIfB_append_headne p _ hp (by decide) (by decide)
  have hA2 : noIfB (("(").data ++ (p ++ (") \x7b\n        ").data)) = true :=
    noIfB_append_lastne _ _ (by decide) hA3 (by decide)
  have hA1 : noIfB (n ++ (("(").data ++ (p ++ (") \x7b\n        ").data))) = true := by
    refine noIfB_append_headne n _ hn hA2 ?_
    intro h
    exact absurd (Option.some.inj h) (by decide)
  have hPC : noIfB (("\npublic class Original \x7b\n    public static double ").data ++ (n ++ (("(").data ++ (p ++ ((") \x7b\n        ").data))))) = true :=
    noIfB_append_lastne _ _ (by decide) hA1 (by decide)
  rw [show ("\npublic class Original \x7b\n    public static double ").data ++ (n ++ (("(").data ++ (p ++ ((") \x7b\n        if (").data ++ (c ++ ((") \x7b\n            return ").data ++ (t ++ ((";\n        \x7d else \x7b\n            return ").data ++ (f ++ ((";\n        \x7d\n    \x7d\n\x7d\n").data)))))))))) =
      (("\npublic class Original \x7b\n    public static double ").data ++ (n ++ (("(").data ++ (p ++ ((") \x7b\n        ").data))))) ++ (("if (").data ++ (c ++ ')' :: ((" \x7b\n            return ").data ++ (t ++ ((";\n        \x7d else \x7b\n            return ").data ++ (f ++ ((";\n        \x7d\n    \x7d\n\x7d\n").data))))))) from by
    simp only [show (") \x7b\n        if (").data = (") \x7b\n        ").data ++ ("if (").data from rfl,
      show ((") \x7b\n            return ").data : List Char) = ')' :: (" \x7b\n            return ").data from rfl,
      List.cons_append, List.append_assoc, List.nil_append]]
  rw [patSearch_append_skip (("\npublic class Original \x7b\n    public static double ").data ++ (n ++ (("(").data ++ (p ++ ((") \x7b\n        ").data))))) (("if (").data ++ (c ++ ')' :: ((" \x7b\n            return ").data ++ (t ++ ((";\n        \x7d else \x7b\n            return ").data ++ (f ++ ((";\n        \x7d\n    \x7d\n\x7d\n").data))))))) hPC
    (fun h => absurd (Option.some.inj h.2) (by decide))]
  exact patSearch_of_matchAt
    (patMatchAt_template c ((" \x7b\n            return ").data ++ (t ++ ((";\n        \x7d else \x7b\n            return ").data ++ (f ++ ((";\n        \x7d\n    \x7d\n\x7d\n").data))))) t f hC hChead hClast
      (afterCond_jShape t f hT hThead hTsemi hF hFhead hFsemi))

set_option maxHeartbeats 2000000 in
/-- C1 (amended): for every function whose body is a single conditional
with one `return` in each branch, whose condition and result expressions
use only the supported operator subset, and whose name and rendered
parameter list contain no occurrence of the substring `if`, the text
produced by each emitter matches the paired reverse extractor's
`IF_RETURN_PATTERN` on the first search attempt, and the captured
condition, true-result and false-result strings equal the expression
strings the emitter rendered into the template.  (The `if`-freedom
provisos are necessary: a supported shape whose name contains `if`
defeats the pattern, as the separate counterexample shows.) -/
theorem emitters_match_extractors (info : FunctionDefInfo)
    (test tE fE : PyExpr)
    (hbody : info.ast.body =
      [PyStmt.ifStmt test [PyStmt.ret (some tE)] [PyStmt.ret (some fE)]])
    (hsup : supportedB test = true) (hsupT : supportedB tE = true)
    (hsupF : supportedB fE = true)
    (hnm : noIfB info.name.data = true)
    (hpr : noIfB (cParams info.args) = true)
    (hnmNl : '\n' ∉ info.name.data)
    (hprNl : '\n' ∉ cParams info.args) :
    ∃ ctext jtext : String,
      generate_c_code info = .ok ctext ∧
      generate_java_code info = .ok jtext ∧
      patSearch ctext.data = some (expr_to_source (some test),
        expr_to_source (some tE), expr_to_source (some fE)) ∧
      patSearch jtext.data = some (expr_to_source (some test),
        expr_to_source (some tE), expr_to_source (some fE)) := by
  have hfi : firstIf info.ast.body =
      some (test, [PyStmt.ret (some tE)], [PyStmt.ret (some fE)]) := by
    rw [hbody]
    rfl
  have hcgen : generate_c_code info = .ok
      ⟨dedentL (cFString info.name.data (cParams info.args)
        (unparseE test) (unparseE tE) (unparseE fE))⟩ := by
    simp only [generate_c_code, hfi]
    rfl
  have hjgen : generate_java_code info = .ok
      ⟨dedentL (javaFString info.name.data (cParams info.args)
        (unparseE test) (unparseE tE) (unparseE fE))⟩ := by
    simp only [generate_java_code, hfi]
    rfl
  obtain ⟨⟨hCne, hCall⟩, hChead, hClast⟩ := unparse_props test hsup
  obtain ⟨⟨hTne, hTall⟩, hThead, hTlast⟩ := unparse_props tE hsupT
  obtain ⟨⟨hFne, hFall⟩, hFhead, hFlast⟩ := unparse_props fE hsupF
  have hCnl : '\n' ∉ unparseE test := fun hm => absurd (hCall _ hm) (by decide)
  have hTnl : '\n' ∉ unparseE tE := fun hm => absurd (hTall _ hm) (by decide)
  have hFnl : '\n' ∉ unparseE fE := fun hm => absurd (hFall _ hm) (by decide)
  have hTsemi : ∀ d ∈ unparseE tE, ¬ d = ';' := fun d hm he =>
    absurd (hTall d hm) (by rw [he]; decide)
  have hFsemi : ∀ d ∈ unparseE fE, ¬ d = ';' := fun d hm he =>
    absurd (hFall d hm) (by rw [he]; decide)
  refine ⟨_, _, hcgen, hjgen, ?_, ?_⟩
  · show patSearch (dedentL (cFString info.name.data (cParams info.args)
      (unparseE test) (unparseE tE) (unparseE fE))) = _
    rw [cFString_flat _ _ _ _ _ hnmNl hprNl hCnl hTnl hFnl]
    exact cText_search _ _ _ _ _ hnm hpr hCall hChead hClast
      hTne hThead hTsemi hFne hFhead hFsemi
  · show patSearch (dedentL (javaFString info.name.data (cParams info.args)
      (unparseE test) (unparseE tE) (unparseE fE))) = _
    rw [javaFString_flat _ _ _ _ _ hnmNl hprNl hCnl hTnl hFnl]
    exact jText_search _ _ _ _ _ hnm hpr hCall hChead hClast
      hTne hThead hTsemi hFne hFhead hFsemi

/-- Witness for the amended template-conformance theorem: the `add_mul`
shape of `original.py`. -/
theorem emitters_match_extractors_witness :
    ∃ ctext jtext : String,
      generate_c_code (mkInfo addMulNode) = .ok ctext ∧
      generate_java_code (mkInfo addMulNode) = .ok jtext ∧
      patSearch ctext.data = some
        (expr_to_source (some (.cmp .gt (.name "a") (.name "b"))),
         expr_to_source (some (.binop .add
           (.binop .mul (.name "a") (.name "b")) (.num 1))),
         expr_to_source (some (.binop .add (.name "a") (.name "b")))) ∧
      patSearch jtext.data = some
        (expr_to_source (some (.cmp .gt (.name "a") (.name "b"))),
         expr_to_source (some (.binop .add
           (.binop .mul (.name "a") (.name "b")) (.num 1))),
         expr_to_source (some (.binop .add (.name "a") (.name "b")))) :=
  emitters_match_extractors (mkInfo addMulNode)
    (.cmp .gt (.name "a") (.name "b"))
    (.binop .add (.binop .mul (.name "a") (.name "b")) (.num 1))
    (.binop .add (.name "a") (.name "b"))
    rfl (by decide) (by decide) (by decide)
    (by decide) (by decide) (by decide) (by decide)

/-- C8: for every recovered condition/true/false text triple and every
caller-supplied function name (all newline-free), the round-trip renderer
produces exactly the source text
`def <name>(a, b):` / `if <cond>: return <true> else: return <false>` —
the function name is the caller-supplied (original) one passed through
unchanged, and the parameter list is the fixed pair `(a, b)` whatever the
original function's parameter names or count were. -/
theorem renderer_name_passthrough_fixed_params (n c t f : List Char)
    (hn : nlFree n = true) (hc : nlFree c = true)
    (ht : nlFree t = true) (hf : nlFree f = true) :
    pyRoundtrip n c t f =
      ("\ndef ").data ++ (n ++ (("(a, b):\n    if ").data ++ (c ++
        ((":\n        return ").data ++ (t ++
          (("\n    else:\n        return ").data ++ (f ++ ("\n").data))))))) :=
  pyRoundtrip_flat n c t f hn hc ht hf

/-- Witness for the renderer theorem at the `add_mul` captures. -/
theorem renderer_name_passthrough_fixed_params_witness :
    pyRoundtrip ("add_mul").data ("a > b").data ("a * b + 1").data
      ("a + b").data =
    ("\ndef add_mul(a, b):\n    if a > b:\n        return a * b + 1\n    else:\n        return a + b\n").data := by
  rw [renderer_name_passthrough_fixed_params _ _ _ _
    (by decide) (by decide) (by decide) (by decide)]
  decide
